import Mathlib

/-!
Command dispatch core of the Ardor application (`src/main.c`).

A shallow embedding of `lookupHandler`, `init_canary`, `check_canary`,
`cleanSharedState` and of the dispatch loop of `ardor_main`, followed by the
properties of the dispatcher.

Modelling conventions.

* `G_io_apdu_buffer` is a map from index to stored value; a read yields an
  `unsigned char` (`% 256`), a store by the dispatcher truncates to one.
* The globals `state`, `lastCmdNumber`, `STACK_CANARY` and the locals `rx`, `tx`,
  `flags` of `ardor_main` are fields of one record that is threaded through the
  loop.  `state` is the byte image of `states_t`.
* `THROW` / `TRY` / `CATCH` are modelled by the outcome of the `TRY` block (ended,
  left by `continue`, or a thrown code) returned next to the state reached.  The
  macros come from the SDK: `TRY` makes the loop's `__try` object the current
  exception context and remembers the one it replaces, `CLOSE_TRY` restores the
  remembered one, `THROW` jumps to the current one.  The current context and the
  remembered one are fields of the state.
* The transport `io_exchange`, the five command handlers, `cleanState`, the
  response codes and `EXCEPTION_IO_RESET` are not defined in `main.c`; they are
  fields of an environment `Env`.  The collaborators act on an abstract world
  `W`, on the APDU buffer and (handlers only) on `state`, `flags` and `tx`.
* Three ghost fields record what happened: `trace` (calls made by the
  dispatcher), `debug` (the `PRINTF` output) and `writer` (the handler that ran
  since `state` was last zeroed).
-/

namespace Ardor

/-! ## The APDU buffer -/

/-- The contents of `G_io_apdu_buffer`. -/
abbrev Buf := Nat → Nat

/-- Reading `G_io_apdu_buffer[i]`, an `unsigned char`. -/
def readByte (buf : Buf) (i : Nat) : Nat := buf i % 256

/-- The assignment `G_io_apdu_buffer[i] = v`, truncating to `unsigned char`. -/
def writeByte (buf : Buf) (i v : Nat) : Buf :=
  fun j => if j = i then v % 256 else buf j

/-! ## Opcodes and the handler table -/

def INS_GET_VERSION : Nat := 0x01
def INS_GET_PUBLIC_KEYS : Nat := 0x02
def INS_AUTH_SIGN_TXN : Nat := 0x03
def INS_ENCRYPT_DECRYPT_MSG : Nat := 0x04
def INS_SHOW_ADDRESS : Nat := 0x05

/-- The five command handlers declared as `handler_fn_t` in `main.c`. -/
inductive Handler where
  | getVersionHandler
  | getPublicKeyHandler
  | authAndSignTxnHandler
  | encryptDecryptMessageHandler
  | showAddressHandler
  deriving DecidableEq, Repr

/-- The function `lookupHandler`: the `switch` over the opcode; `none` is `NULL`. -/
def lookupHandler (ins : Nat) : Option Handler :=
  if ins = INS_GET_VERSION then some Handler.getVersionHandler
  else if ins = INS_GET_PUBLIC_KEYS then some Handler.getPublicKeyHandler
  else if ins = INS_AUTH_SIGN_TXN then some Handler.authAndSignTxnHandler
  else if ins = INS_ENCRYPT_DECRYPT_MSG then some Handler.encryptDecryptMessageHandler
  else if ins = INS_SHOW_ADDRESS then some Handler.showAddressHandler
  else none

def CLA : Nat := 0xE0
def OFFSET_CLA : Nat := 0x00
def OFFSET_INS : Nat := 0x01
def OFFSET_P1 : Nat := 0x02
def OFFSET_P2 : Nat := 0x03
def OFFSET_LC : Nat := 0x04
def OFFSET_CDATA : Nat := 0x05

/-- The initialiser of the global `uint8_t lastCmdNumber = 0`. -/
def lastCmdNumber_init : Nat := 0

/-! ## Collaborators -/

/-- What one call of `io_exchange` does: it may rewrite the APDU buffer and the
outside world, and either returns the received length `rx` or throws. -/
structure ExchangeResult (W : Type) where
  world : W
  buf : Buf
  rx : Nat
  thrown : Option Nat

/-- What one call of a command handler does.  The handler owns `state`, the APDU
buffer and the out-parameters `flags` and `tx` while it runs; when it throws,
the fields hold what it had written up to the throw. -/
structure HandlerResult (W : Type) where
  world : W
  buf : Buf
  state : List Nat
  flags : Nat
  tx : Nat
  thrown : Option Nat

/-- Everything `main.c` uses without defining it. -/
structure Env (W : Type) where
  /-- Response code of `returnValues.h`. -/
  R_BAD_CLA : Nat
  /-- Response code of `returnValues.h`. -/
  R_UNKOWN_CMD : Nat
  /-- Response code of `returnValues.h`. -/
  R_EXCEPTION : Nat
  /-- Exception code of the SDK. -/
  EXCEPTION_IO_RESET : Nat
  /-- Channel constant of the SDK. -/
  CHANNEL_APDU : Nat
  /-- The value of `sizeof(state)`. -/
  sizeof_state : Nat
  /-- The call `io_exchange(channel, tx_len)` on the current world and buffer. -/
  io_exchange : W → Buf → Nat → Nat → ExchangeResult W
  /-- The call `handlerFn(p1, p2, G_io_apdu_buffer + OFFSET_CDATA, dataLength, &flags, &tx)`:
  arguments are the world, `state`, the buffer, `p1`, `p2`, `dataLength`, `*flags`, `*tx`. -/
  handler : Handler → W → List Nat → Buf → Nat → Nat → Nat → Nat → Nat → HandlerResult W
  /-- The effect of `fillBufferWithAnswerAndEnding(answer, tx)` on the APDU buffer.
  Both arguments are passed by value, so the local `tx` of `ardor_main` is out of
  its reach. -/
  fillBufferWithAnswerAndEnding : Nat → Nat → Buf → Buf
  /-- The effect of `cleanState()` on `state`. -/
  cleanState : List Nat → List Nat

/-- Modelled from the spec: the Response Framer `fillBufferWithAnswerAndEnding`,
whose body is not in `main.c`.  Given a status code and the current output length
it stores the code at the cursor (third byte of the error response), appends the
two-byte status word `sw1 sw2` and yields the final transmit length. -/
def specFramer (sw1 sw2 : Nat) (answer tx : Nat) (buf : Buf) : Buf × Nat :=
  (writeByte (writeByte (writeByte buf tx answer) (tx + 1) sw1) (tx + 2) sw2, tx + 3)

/-! ## Dispatcher state -/

/-- A call made by the dispatcher, in program order. -/
inductive Event where
  /-- The call `io_exchange(channel, tx_len)`. -/
  | exchange (channel txLen : Nat)
  /-- The call `cleanSharedState()`. -/
  | cleanSharedState
  /-- The call `fillBufferWithAnswerAndEnding(answer, tx)`. -/
  | fillBuffer (answer tx : Nat)
  /-- The call `handlerFn(p1, p2, _, dataLength, _, _)`, with the `state` the handler finds
  and the handler that wrote to it since it was last zeroed. -/
  | handlerFn (h : Handler) (p1 p2 dataLength : Nat) (observed : List Nat)
      (writer : Option Handler)
  deriving DecidableEq, Repr

/-- A line of `PRINTF` output. -/
inductive DebugLine where
  /-- The line `"\n ttt %d"` with the result of `check_canary()`. -/
  | ttt (ok : Bool)
  /-- The line `"\nasdasd"`. -/
  | asdasd
  deriving DecidableEq, Repr

/-- The exception contexts that can be current while the loop of `ardor_main` runs:
the one of the caller (`main`) and the `__try` object of the loop, which sits at the
same address in every pass. -/
inductive TryContext where
  | caller
  | loop
  deriving DecidableEq, Repr

/-- The globals of `main.c`, the locals of `ardor_main`, the current exception context
of the SDK (`try_context`), the field `__try.previous` of the loop's context, the
outside world and the ghost fields. -/
structure DState (W : Type) where
  world : W
  try_context : TryContext
  previous : TryContext
  G_io_apdu_buffer : Buf
  lastCmdNumber : Nat
  state : List Nat
  STACK_CANARY : Nat
  rx : Nat
  tx : Nat
  flags : Nat
  writer : Option Handler
  trace : List Event
  debug : List DebugLine

/-- The function `init_canary`. -/
def init_canary {W : Type} (s : DState W) : DState W :=
  { s with STACK_CANARY := 0xDEADBEEF }

/-- The function `check_canary`. -/
def check_canary {W : Type} (s : DState W) : Bool :=
  s.STACK_CANARY == 0xDEADBEEF

/-- The all-zero value of `state`. -/
def zeroState {W : Type} (env : Env W) : List Nat := List.replicate env.sizeof_state 0

/-- The function `cleanSharedState`: `os_memset(&state, 0, sizeof(state))`. -/
def cleanSharedState {W : Type} (env : Env W) (s : DState W) : DState W :=
  { s with state := zeroState env, writer := none,
           trace := s.trace ++ [Event.cleanSharedState] }

/-- The call `fillBufferWithAnswerAndEnding(answer, tx)` made by `ardor_main`. -/
def callFillBuffer {W : Type} (env : Env W) (answer : Nat) (s : DState W) : DState W :=
  { s with G_io_apdu_buffer := env.fillBufferWithAnswerAndEnding answer s.tx s.G_io_apdu_buffer,
           trace := s.trace ++ [Event.fillBuffer answer s.tx] }

/-- Lines 196-199: clear `state` when the opcode differs from `lastCmdNumber`. -/
def isolate {W : Type} (env : Env W) (s : DState W) : DState W :=
  if s.lastCmdNumber ≠ readByte s.G_io_apdu_buffer OFFSET_INS then
    { cleanSharedState env s with lastCmdNumber := readByte s.G_io_apdu_buffer OFFSET_INS }
  else s

/-- Lines 207-208: the call of the handler found by `lookupHandler`. -/
def callHandler {W : Type} (env : Env W) (h : Handler) (s : DState W) :
    DState W × Option Nat :=
  let p1 := readByte s.G_io_apdu_buffer OFFSET_P1
  let p2 := readByte s.G_io_apdu_buffer OFFSET_P2
  let dataLength := readByte s.G_io_apdu_buffer OFFSET_LC
  let r := env.handler h s.world s.state s.G_io_apdu_buffer p1 p2 dataLength s.flags s.tx
  ({ s with world := r.world, G_io_apdu_buffer := r.buf, state := r.state,
            flags := r.flags, tx := r.tx, writer := some h,
            trace := s.trace ++ [Event.handlerFn h p1 p2 dataLength s.state s.writer] },
   r.thrown)

/-- How control leaves the `TRY` block: at its end, by the statement `continue`, or
by a `THROW` of a code. -/
inductive Outcome where
  | finished
  | continued
  | thrown (e : Nat)
  deriving DecidableEq, Repr

/-- The thrown code of an outcome, if any. -/
def Outcome.code : Outcome → Option Nat
  | Outcome.thrown e => some e
  | _ => none

/-- The SDK macro `TRY` when `setjmp` returns 0: `__try.previous = try_context_set(&__try)`. -/
def openTry {W : Type} (s : DState W) : DState W :=
  { s with previous := s.try_context, try_context := TryContext.loop }

/-- The SDK macro `CLOSE_TRY`: `try_context_set(__try.previous)`. -/
def closeTry {W : Type} (s : DState W) : DState W :=
  { s with try_context := s.previous }

/-- The SDK macro `FINALLY`: `if (try_context_get() == &__try) CLOSE_TRY`; the block
itself is empty (lines 226-227). -/
def finallyBlock {W : Type} (s : DState W) : DState W :=
  if s.try_context = TryContext.loop then closeTry s else s

/-- Lines 185-208: the part of the `TRY` block after the exchange has returned.  The
two `continue` statements (lines 191 and 205) leave the block without `CLOSE_TRY`. -/
def afterExchange {W : Type} (env : Env W) (s : DState W) : DState W × Outcome :=
  if s.rx = 0 then (s, Outcome.thrown env.EXCEPTION_IO_RESET)
  else if CLA ≠ readByte s.G_io_apdu_buffer OFFSET_CLA then
    (callFillBuffer env env.R_BAD_CLA s, Outcome.continued)
  else
    let s1 := isolate env s
    match lookupHandler (readByte s1.G_io_apdu_buffer OFFSET_INS) with
    | none => (callFillBuffer env env.R_UNKOWN_CMD s1, Outcome.continued)
    | some h =>
      match callHandler env h s1 with
      | (t, none) => (t, Outcome.finished)
      | (t, some e) => (t, Outcome.thrown e)

/-- Lines 174-176: `rx = tx; tx = 0; io_exchange(CHANNEL_APDU | flags, rx)`. -/
def doExchange {W : Type} (env : Env W) (s : DState W) : DState W × ExchangeResult W :=
  let s1 := { s with rx := s.tx }
  let s2 := { s1 with tx := 0 }
  let r := env.io_exchange s2.world s2.G_io_apdu_buffer (env.CHANNEL_APDU ||| s2.flags) s2.rx
  ({ s2 with world := r.world, G_io_apdu_buffer := r.buf,
             trace := s2.trace ++ [Event.exchange (env.CHANNEL_APDU ||| s2.flags) s2.rx] }, r)

/-- Lines 176-182 when the exchange has returned: `rx` receives the result, the two
`PRINTF` lines are logged, `flags = 0`. -/
def arrived {W : Type} (s : DState W) (r : ExchangeResult W) : DState W :=
  let s1 := { s with rx := r.rx }
  let s2 := { s1 with debug := s1.debug ++ [DebugLine.ttt (check_canary s1), DebugLine.asdasd] }
  { s2 with flags := 0 }

/-- The `TRY` block of `ardor_main` (lines 173-209), entered from the top of the loop:
the state reached and how control leaves the block. -/
def tryBody {W : Type} (env : Env W) (s : DState W) : DState W × Outcome :=
  match doExchange env (openTry s) with
  | (s1, r) =>
    match r.thrown with
    | some e => (s1, Outcome.thrown e)
    | none => afterExchange env (arrived s1 r)

/-- The `TRY` block as the catch clauses see it: the state reached and the exception
thrown in it, if any. -/
def tryBlock {W : Type} (env : Env W) (s : DState W) : DState W × Option Nat :=
  ((tryBody env s).1, (tryBody env s).2.code)

/-- The `CATCH_OTHER(e)` block of `ardor_main` (lines 213-225); the macro closes the
try before the block runs. -/
def catchOther {W : Type} (env : Env W) (e : Nat) (s : DState W) : DState W :=
  let s0 := closeTry s
  let s1 := cleanSharedState env s0
  let s2 := { s1 with tx := 0 }
  let s3 := { s2 with flags := 0 }
  let s4 := { s3 with G_io_apdu_buffer := writeByte s3.G_io_apdu_buffer s3.tx env.R_EXCEPTION,
                      tx := s3.tx + 1 }
  let s5 := { s4 with G_io_apdu_buffer := writeByte s4.G_io_apdu_buffer s4.tx (e >>> 8),
                      tx := s4.tx + 1 }
  callFillBuffer env (e &&& 0xFF) s5

/-- Where control goes after a pass, or after the clause `CATCH(EXCEPTION_IO_RESET)`:
to the top of the loop, out of `ardor_main` with a code, or back into the clause
`CATCH(EXCEPTION_IO_RESET)` of the loop's own `TRY`. -/
inductive Control where
  | nextPass
  | leave (e : Nat)
  | caughtAgain
  deriving DecidableEq, Repr

/-- A state and where control goes from it. -/
structure PassResult (W : Type) where
  next : DState W
  control : Control

/-- The clause `CATCH(EXCEPTION_IO_RESET) { THROW(EXCEPTION_IO_RESET); }` (lines
210-212): the macro closes the try, then the `THROW` jumps to the context that is
current.  When that is the caller's context the exception leaves `ardor_main`;
when it is the loop's own context, `setjmp` of the loop's `TRY` returns the code
and the same clause is entered again. -/
def catchReset {W : Type} (env : Env W) (s : DState W) : PassResult W :=
  let s1 := closeTry s
  if s1.try_context = TryContext.caller then
    { next := s1, control := Control.leave env.EXCEPTION_IO_RESET }
  else
    { next := s1, control := Control.caughtAgain }

/-- One pass through the body of `for (;;)` (lines 161-230), from the top of the
loop. -/
def pass {W : Type} (env : Env W) (s : DState W) : PassResult W :=
  match tryBody env s with
  | (s1, Outcome.finished) => { next := finallyBlock s1, control := Control.nextPass }
  | (s1, Outcome.continued) => { next := s1, control := Control.nextPass }
  | (s1, Outcome.thrown e) =>
    if e = env.EXCEPTION_IO_RESET then catchReset env s1
    else { next := finallyBlock (catchOther env e s1), control := Control.nextPass }

/-- The outcome of one pass through the body of `for (;;)`: the state reached, and
the exception that leaves `ardor_main`, if any. -/
structure CycleResult (W : Type) where
  next : DState W
  exit : Option Nat

/-- The exception with which control leaves `ardor_main`, if it does. -/
def Control.exit : Control → Option Nat
  | Control.leave e => some e
  | _ => none

/-- One pass through the body of `for (;;)` (lines 161-230): the state reached and
the exception that leaves `ardor_main` in this pass, if any. -/
def cycle {W : Type} (env : Env W) (s : DState W) : CycleResult W :=
  { next := (pass env s).next, exit := (pass env s).control.exit }

/-- The clause `CATCH(EXCEPTION_IO_RESET)` entered again and again by its own `THROW`,
cut off after `fuel` entries. -/
def rethrow {W : Type} (env : Env W) : Nat → DState W → CycleResult W
  | 0, s => { next := s, exit := none }
  | fuel + 1, s =>
    match catchReset env s with
    | { next := s1, control := Control.leave e } => { next := s1, exit := some e }
    | { next := s1, control := _ } => rethrow env fuel s1

/-- The loop `for (;;)` of `ardor_main`, cut off after `fuel` passes or entries of the
clause `CATCH(EXCEPTION_IO_RESET)`. -/
def ardor_loop {W : Type} (env : Env W) : Nat → DState W → CycleResult W
  | 0, s => { next := s, exit := none }
  | fuel + 1, s =>
    match pass env s with
    | { next := s1, control := Control.nextPass } => ardor_loop env fuel s1
    | { next := s1, control := Control.leave e } => { next := s1, exit := some e }
    | { next := s1, control := Control.caughtAgain } => rethrow env fuel s1

/-- The function `ardor_main`: `init_canary()`, `cleanState()`, the three locals set to
zero, then the loop. -/
def ardor_main {W : Type} (env : Env W) (fuel : Nat) (s : DState W) : CycleResult W :=
  let s1 := init_canary s
  let s2 := { s1 with state := env.cleanState s1.state }
  ardor_loop env fuel { s2 with rx := 0, tx := 0, flags := 0 }

/-- The result of the exchange made at the top of a pass started in `s`: the
frame the pass works on. -/
def received {W : Type} (env : Env W) (s : DState W) : ExchangeResult W :=
  (doExchange env (openTry s)).2

/-- The state in which the dispatcher examines the frame (line 185), for a pass
started in `s` whose exchange returned. -/
def atDispatch {W : Type} (env : Env W) (s : DState W) : DState W :=
  arrived (doExchange env (openTry s)).1 (received env s)

/-- The state with the two exception-context fields reset: what is left is the data
the dispatcher works on. -/
def forgetContext {W : Type} (s : DState W) : DState W :=
  { s with try_context := TryContext.caller, previous := TryContext.caller }

/-- Replace the canary word and the `PRINTF` log of a state. -/
def withCanary {W : Type} (c : Nat) (d : List DebugLine) (s : DState W) : DState W :=
  { s with STACK_CANARY := c, debug := d }

/-- The part of the Response Framer's contract that fixes the third byte of an error
response: the status code is stored at the cursor and the bytes below the cursor
are left as they are. -/
def FramerStoresCode {W : Type} (env : Env W) : Prop :=
  ∀ (answer tx : Nat) (buf : Buf),
    readByte (env.fillBufferWithAnswerAndEnding answer tx buf) tx = answer % 256 ∧
    ∀ i, i < tx → env.fillBufferWithAnswerAndEnding answer tx buf i = buf i

/-- A handler call is isolated when the `state` it finds has not been written by
another handler since it was last zeroed. -/
def Event.isolated (ev : Event) : Prop :=
  match ev with
  | Event.handlerFn h _ _ _ _ w => w = none ∨ w = some h
  | _ => True

instance (ev : Event) : Decidable ev.isolated := by
  cases ev <;> simp only [Event.isolated] <;> infer_instance

/-- The handler that wrote to `state` since it was last zeroed, if any, is the
handler of `lastCmdNumber`. -/
def WriterInv {W : Type} (s : DState W) : Prop :=
  s.writer = none ∨ lookupHandler s.lastCmdNumber = s.writer

instance {W : Type} (s : DState W) : Decidable (WriterInv s) := by
  unfold WriterInv; infer_instance

/-- `WriterInv` holds and every handler call made so far was isolated. -/
def Good {W : Type} (s : DState W) : Prop :=
  WriterInv s ∧ ∀ ev ∈ s.trace, ev.isolated

/-! ## A small concrete environment

The world is the queue of frames the host still has to send.  It is used to
evaluate the dispatcher on concrete inputs. -/

/-- Copy a frame to the start of the buffer. -/
def loadFrame (frame : List Nat) (buf : Buf) : Buf :=
  fun i => if i < frame.length then frame.getD i 0 else buf i

/-- A transport: an empty queue yields zero bytes; a frame whose first byte is
`0xFF` makes the transport throw the code held in its next two bytes; any other
frame is received. -/
def demoExchange (w : List (List Nat)) (buf : Buf) (_channel _txLen : Nat) :
    ExchangeResult (List (List Nat)) :=
  match w with
  | [] => { world := [], buf := buf, rx := 0, thrown := none }
  | f :: rest =>
    if f.getD 0 0 = 0xFF then
      { world := rest, buf := buf, rx := 0, thrown := some (f.getD 1 0 * 256 + f.getD 2 0) }
    else
      { world := rest, buf := loadFrame f buf, rx := f.length, thrown := none }

/-- The opcode a handler serves. -/
def Handler.ins : Handler → Nat
  | Handler.getVersionHandler => INS_GET_VERSION
  | Handler.getPublicKeyHandler => INS_GET_PUBLIC_KEYS
  | Handler.authAndSignTxnHandler => INS_AUTH_SIGN_TXN
  | Handler.encryptDecryptMessageHandler => INS_ENCRYPT_DECRYPT_MSG
  | Handler.showAddressHandler => INS_SHOW_ADDRESS

/-- A handler: it stores its opcode and `p2` in `state`, sets `flags` and `tx`, and
then throws `0x6A80` when `p1 = 0xFF`, throws `0x10` when `p1 = 0xFE`, and
otherwise answers with the byte `p2`. -/
def demoHandler (h : Handler) (w : List (List Nat)) (_state : List Nat) (buf : Buf)
    (p1 p2 _dataLength _flags _tx : Nat) : HandlerResult (List (List Nat)) :=
  if p1 = 0xFF then
    { world := w, buf := buf, state := [h.ins, p2], flags := 0x10, tx := 7, thrown := some 0x6A80 }
  else if p1 = 0xFE then
    { world := w, buf := buf, state := [h.ins, p2], flags := 0x10, tx := 7, thrown := some 0x10 }
  else
    { world := w, buf := writeByte buf 0 p2, state := [h.ins, p2], flags := 0, tx := 1,
      thrown := none }

/-- A concrete environment; the Response Framer is `specFramer` with status word
`0x90 0x00`. -/
def demoEnv : Env (List (List Nat)) where
  R_BAD_CLA := 1
  R_UNKOWN_CMD := 2
  R_EXCEPTION := 14
  EXCEPTION_IO_RESET := 0x10
  CHANNEL_APDU := 0
  sizeof_state := 2
  io_exchange := demoExchange
  handler := demoHandler
  fillBufferWithAnswerAndEnding := fun answer tx buf => (specFramer 0x90 0x00 answer tx buf).1
  cleanState := fun st => st

/-- A dispatcher state with the given frame queue, marker and `state`, in which the
current exception context is the caller's, as when `main` calls `ardor_main`. -/
def demoState (frames : List (List Nat)) (last : Nat) (st : List Nat)
    (w : Option Handler) : DState (List (List Nat)) where
  world := frames
  try_context := TryContext.caller
  previous := TryContext.caller
  G_io_apdu_buffer := fun _ => 0
  lastCmdNumber := last
  state := st
  STACK_CANARY := 0xDEADBEEF
  rx := 0
  tx := 0
  flags := 0
  writer := w
  trace := []
  debug := []

/-- The host sends a frame of class `0xE1`, opcode `0x01`, after a get-version request. -/
def badClassInput : DState (List (List Nat)) :=
  demoState [[0xE1, 0x01, 0, 0, 0]] 1 [1, 9] (some Handler.getVersionHandler)

/-- The host sends a frame of class `0xE0` with the unknown opcode `0x07` after a
get-version request that left `state = [1, 9]`. -/
def unknownInput : DState (List (List Nat)) :=
  demoState [[0xE0, 0x07, 0, 0, 0]] 1 [1, 9] (some Handler.getVersionHandler)

/-- The host sends a get-public-keys request (opcode `0x02`) with `p1 = 0xFF`, on which
the handler throws `0x6A80`, after a get-version request. -/
def faultInput : DState (List (List Nat)) :=
  demoState [[0xE0, 0x02, 0xFF, 5, 0]] 1 [1, 9] (some Handler.getVersionHandler)

/-- The host sends a get-public-keys request after a get-version request that left
`state = [1, 9]`. -/
def changeInput : DState (List (List Nat)) :=
  demoState [[0xE0, 0x02, 0, 5, 0]] 1 [1, 9] (some Handler.getVersionHandler)

/-- At start-up the host sends get-public-keys with `p1 = 0xFF` (the handler writes
`[2, 5]` to `state` and throws `0x6A80`) and then get-public-keys again. -/
def repeatFaultInput : DState (List (List Nat)) :=
  demoState [[0xE0, 0x02, 0xFF, 5, 0], [0xE0, 0x02, 0, 6, 0]] 0 [0, 0] none

/-- At start-up the host sends get-public-keys twice; the first handler call
returns. -/
def repeatInput : DState (List (List Nat)) :=
  demoState [[0xE0, 0x02, 0, 5, 0], [0xE0, 0x02, 1, 6, 0]] 0 [0, 0] none

/-- At start-up the host sends a frame of class `0xE1` and then a get-version
request. -/
def badClassThenInput : DState (List (List Nat)) :=
  demoState [[0xE1, 0x01, 0, 0, 0], [0xE0, 0x01, 0, 5, 0]] 0 [0, 0] none

/-- At start-up the host sends a frame of class `0xE1` and then nothing. -/
def badClassThenEmptyInput : DState (List (List Nat)) :=
  demoState [[0xE1, 0x01, 0, 0, 0]] 0 [0, 0] none

/-- At start-up the host sends the unknown opcode `0x07` and then get-public-keys with
`p1 = 0xFE`, on which the handler throws `EXCEPTION_IO_RESET` (`0x10`). -/
def unknownThenResetInput : DState (List (List Nat)) :=
  demoState [[0xE0, 0x07, 0, 0, 0], [0xE0, 0x02, 0xFE, 5, 0]] 0 [0, 0] none

/-- At start-up the host sends get-public-keys with `p1 = 0xFE`, on which the handler
throws `EXCEPTION_IO_RESET` (`0x10`). -/
def resetInput : DState (List (List Nat)) :=
  demoState [[0xE0, 0x02, 0xFE, 5, 0]] 0 [0, 0] none

/-- The host sends nothing after a get-version request. -/
def emptyInput : DState (List (List Nat)) :=
  demoState [] 1 [1, 9] (some Handler.getVersionHandler)

/-! ## Basic facts about one pass of the loop -/

section Basic

variable {W : Type}

theorem received_eq (env : Env W) (s : DState W) :
    received env s =
      env.io_exchange s.world s.G_io_apdu_buffer (env.CHANNEL_APDU ||| s.flags) s.tx := rfl

theorem tryBody_thrown (env : Env W) (s : DState W) (e : Nat)
    (h : (received env s).thrown = some e) :
    tryBody env s = ((doExchange env (openTry s)).1, Outcome.thrown e) := by
  have h1 : (doExchange env (openTry s)).2.thrown = some e := h
  simp only [tryBody]
  rw [h1]

theorem tryBody_returned (env : Env W) (s : DState W)
    (h : (received env s).thrown = none) :
    tryBody env s = afterExchange env (atDispatch env s) := by
  have h1 : (doExchange env (openTry s)).2.thrown = none := h
  simp only [tryBody, atDispatch, received]
  rw [h1]

@[simp] theorem atDispatch_rx (env : Env W) (s : DState W) :
    (atDispatch env s).rx = (received env s).rx := rfl

@[simp] theorem atDispatch_buf (env : Env W) (s : DState W) :
    (atDispatch env s).G_io_apdu_buffer = (received env s).buf := rfl

@[simp] theorem atDispatch_world (env : Env W) (s : DState W) :
    (atDispatch env s).world = (received env s).world := rfl

@[simp] theorem atDispatch_lastCmdNumber (env : Env W) (s : DState W) :
    (atDispatch env s).lastCmdNumber = s.lastCmdNumber := rfl

@[simp] theorem atDispatch_state (env : Env W) (s : DState W) :
    (atDispatch env s).state = s.state := rfl

@[simp] theorem atDispatch_writer (env : Env W) (s : DState W) :
    (atDispatch env s).writer = s.writer := rfl

@[simp] theorem atDispatch_tx (env : Env W) (s : DState W) :
    (atDispatch env s).tx = 0 := rfl

@[simp] theorem atDispatch_flags (env : Env W) (s : DState W) :
    (atDispatch env s).flags = 0 := rfl

@[simp] theorem atDispatch_canary (env : Env W) (s : DState W) :
    (atDispatch env s).STACK_CANARY = s.STACK_CANARY := rfl

@[simp] theorem atDispatch_trace (env : Env W) (s : DState W) :
    (atDispatch env s).trace =
      s.trace ++ [Event.exchange (env.CHANNEL_APDU ||| s.flags) s.tx] := rfl

@[simp] theorem atDispatch_try_context (env : Env W) (s : DState W) :
    (atDispatch env s).try_context = TryContext.loop := rfl

@[simp] theorem atDispatch_previous (env : Env W) (s : DState W) :
    (atDispatch env s).previous = s.try_context := rfl

theorem isolate_buf (env : Env W) (s : DState W) :
    (isolate env s).G_io_apdu_buffer = s.G_io_apdu_buffer := by
  unfold isolate; split <;> rfl

theorem isolate_try_context (env : Env W) (s : DState W) :
    (isolate env s).try_context = s.try_context := by
  unfold isolate; split <;> rfl

theorem isolate_previous (env : Env W) (s : DState W) :
    (isolate env s).previous = s.previous := by
  unfold isolate; split <;> rfl

theorem isolate_lastCmdNumber (env : Env W) (s : DState W) :
    (isolate env s).lastCmdNumber = readByte s.G_io_apdu_buffer OFFSET_INS := by
  unfold isolate
  split
  · rfl
  · rename_i h
    exact not_not.mp h

/-- The `TRY` block when the exchange returned a frame of the wrong class. -/
theorem tryBody_bad_class (env : Env W) (s : DState W)
    (hret : (received env s).thrown = none) (hrx : (received env s).rx ≠ 0)
    (hcla : readByte (received env s).buf OFFSET_CLA ≠ CLA) :
    tryBody env s
      = (callFillBuffer env env.R_BAD_CLA (atDispatch env s), Outcome.continued) := by
  rw [tryBody_returned env s hret]
  simp [afterExchange, hrx, Ne.symm hcla]

/-- The `TRY` block when the exchange returned a frame of class `CLA` with an opcode
that has no handler. -/
theorem tryBody_unknown (env : Env W) (s : DState W)
    (hret : (received env s).thrown = none) (hrx : (received env s).rx ≠ 0)
    (hcla : readByte (received env s).buf OFFSET_CLA = CLA)
    (hno : lookupHandler (readByte (received env s).buf OFFSET_INS) = none) :
    tryBody env s
      = (callFillBuffer env env.R_UNKOWN_CMD (isolate env (atDispatch env s)),
          Outcome.continued) := by
  rw [tryBody_returned env s hret]
  simp [afterExchange, hrx, hcla, isolate_buf, hno]

/-- The `TRY` block when the exchange returned a frame of class `CLA` whose opcode
has the handler `h`. -/
theorem tryBody_handler (env : Env W) (s : DState W) (h : Handler)
    (hret : (received env s).thrown = none) (hrx : (received env s).rx ≠ 0)
    (hcla : readByte (received env s).buf OFFSET_CLA = CLA)
    (hh : lookupHandler (readByte (received env s).buf OFFSET_INS) = some h) :
    tryBody env s
      = ((callHandler env h (isolate env (atDispatch env s))).1,
          match (callHandler env h (isolate env (atDispatch env s))).2 with
          | none => Outcome.finished
          | some e => Outcome.thrown e) := by
  rw [tryBody_returned env s hret]
  simp only [afterExchange, atDispatch_rx, if_neg hrx, atDispatch_buf, hcla, ne_eq,
    not_true_eq_false, if_false, isolate_buf, hh]
  rcases callHandler env h (isolate env (atDispatch env s)) with ⟨t, x⟩
  cases x <;> rfl

/-- The `TRY` block when the exchange returned no byte. -/
theorem tryBody_empty (env : Env W) (s : DState W)
    (hret : (received env s).thrown = none) (hrx : (received env s).rx = 0) :
    tryBody env s = (atDispatch env s, Outcome.thrown env.EXCEPTION_IO_RESET) := by
  rw [tryBody_returned env s hret]
  simp [afterExchange, hrx]

theorem tryBlock_thrown (env : Env W) (s : DState W) (e : Nat)
    (h : (received env s).thrown = some e) :
    tryBlock env s = ((doExchange env (openTry s)).1, some e) := by
  simp only [tryBlock, tryBody_thrown env s e h, Outcome.code]

theorem tryBlock_handler (env : Env W) (s : DState W) (h : Handler)
    (hret : (received env s).thrown = none) (hrx : (received env s).rx ≠ 0)
    (hcla : readByte (received env s).buf OFFSET_CLA = CLA)
    (hh : lookupHandler (readByte (received env s).buf OFFSET_INS) = some h) :
    tryBlock env s = callHandler env h (isolate env (atDispatch env s)) := by
  simp only [tryBlock, tryBody_handler env s h hret hrx hcla hh]
  rcases callHandler env h (isolate env (atDispatch env s)) with ⟨t, x⟩
  cases x <;> rfl

theorem tryBlock_empty (env : Env W) (s : DState W)
    (hret : (received env s).thrown = none) (hrx : (received env s).rx = 0) :
    tryBlock env s = (atDispatch env s, some env.EXCEPTION_IO_RESET) := by
  simp only [tryBlock, tryBody_empty env s hret hrx, Outcome.code]

theorem forgetContext_finallyBlock (s : DState W) :
    forgetContext (finallyBlock s) = forgetContext s := by
  unfold finallyBlock; split <;> rfl

theorem forgetContext_closeTry (s : DState W) :
    forgetContext (closeTry s) = forgetContext s := rfl

theorem forgetContext_catchReset (env : Env W) (s : DState W) :
    forgetContext (catchReset env s).next = forgetContext s := by
  unfold catchReset; simp only []; split <;> rfl

theorem fc_trace (a b : DState W) (h : forgetContext a = forgetContext b) :
    a.trace = b.trace := by
  have h1 := congrArg DState.trace h
  exact h1

theorem fc_writer (a b : DState W) (h : forgetContext a = forgetContext b) :
    a.writer = b.writer := by
  have h1 := congrArg DState.writer h
  exact h1

theorem fc_lastCmdNumber (a b : DState W) (h : forgetContext a = forgetContext b) :
    a.lastCmdNumber = b.lastCmdNumber := by
  have h1 := congrArg DState.lastCmdNumber h
  exact h1

theorem fc_state (a b : DState W) (h : forgetContext a = forgetContext b) :
    a.state = b.state := by
  have h1 := congrArg DState.state h
  exact h1

theorem fc_buf (a b : DState W) (h : forgetContext a = forgetContext b) :
    a.G_io_apdu_buffer = b.G_io_apdu_buffer := by
  have h1 := congrArg DState.G_io_apdu_buffer h
  exact h1

theorem fc_tx (a b : DState W) (h : forgetContext a = forgetContext b) :
    a.tx = b.tx := by
  have h1 := congrArg DState.tx h
  exact h1

theorem fc_flags (a b : DState W) (h : forgetContext a = forgetContext b) :
    a.flags = b.flags := by
  have h1 := congrArg DState.flags h
  exact h1

theorem cycle_next (env : Env W) (s : DState W) :
    (cycle env s).next = (pass env s).next := rfl

theorem cycle_exit (env : Env W) (s : DState W) :
    (cycle env s).exit = (pass env s).control.exit := rfl

theorem pass_finished (env : Env W) (s u : DState W)
    (hb : tryBody env s = (u, Outcome.finished)) :
    pass env s = { next := finallyBlock u, control := Control.nextPass } := by
  simp only [pass, hb]

theorem pass_continued (env : Env W) (s u : DState W)
    (hb : tryBody env s = (u, Outcome.continued)) :
    pass env s = { next := u, control := Control.nextPass } := by
  simp only [pass, hb]

theorem pass_thrown_reset (env : Env W) (s u : DState W)
    (hb : tryBody env s = (u, Outcome.thrown env.EXCEPTION_IO_RESET)) :
    pass env s = catchReset env u := by
  simp only [pass, hb, if_true]

theorem pass_thrown_other (env : Env W) (s u : DState W) (e : Nat)
    (hb : tryBody env s = (u, Outcome.thrown e)) (he : e ≠ env.EXCEPTION_IO_RESET) :
    pass env s = { next := finallyBlock (catchOther env e u), control := Control.nextPass } := by
  simp only [pass, hb, if_neg he]

/-- A pass whose `TRY` block throws nothing goes on with the next pass. -/
theorem pass_none (env : Env W) (s t : DState W) (ht : tryBlock env s = (t, none)) :
    (pass env s).control = Control.nextPass ∧
    forgetContext (pass env s).next = forgetContext t := by
  unfold tryBlock at ht
  rcases hb : tryBody env s with ⟨u, o⟩
  rw [hb] at ht
  simp only [Prod.mk.injEq] at ht
  obtain ⟨h1, h2⟩ := ht
  subst h1
  cases o with
  | finished =>
    rw [pass_finished env s u hb]
    exact ⟨rfl, forgetContext_finallyBlock u⟩
  | continued =>
    rw [pass_continued env s u hb]
    exact ⟨rfl, rfl⟩
  | thrown e => simp [Outcome.code] at h2

/-- A pass whose `TRY` block throws a code other than the reset runs `CATCH_OTHER`
and goes on with the next pass. -/
theorem pass_other (env : Env W) (s t : DState W) (e : Nat)
    (ht : tryBlock env s = (t, some e)) (he : e ≠ env.EXCEPTION_IO_RESET) :
    (pass env s).control = Control.nextPass ∧
    forgetContext (pass env s).next = forgetContext (catchOther env e t) := by
  unfold tryBlock at ht
  rcases hb : tryBody env s with ⟨u, o⟩
  rw [hb] at ht
  simp only [Prod.mk.injEq] at ht
  obtain ⟨h1, h2⟩ := ht
  subst h1
  cases o with
  | finished => simp [Outcome.code] at h2
  | continued => simp [Outcome.code] at h2
  | thrown e1 =>
    simp only [Outcome.code, Option.some.injEq] at h2
    subst h2
    rw [pass_thrown_other env s u e1 hb he]
    exact ⟨rfl, forgetContext_finallyBlock _⟩

/-- A pass whose `TRY` block throws the reset runs the clause
`CATCH(EXCEPTION_IO_RESET)`. -/
theorem pass_reset (env : Env W) (s t : DState W)
    (ht : tryBlock env s = (t, some env.EXCEPTION_IO_RESET)) :
    pass env s = catchReset env t := by
  unfold tryBlock at ht
  rcases hb : tryBody env s with ⟨u, o⟩
  rw [hb] at ht
  simp only [Prod.mk.injEq] at ht
  obtain ⟨h1, h2⟩ := ht
  subst h1
  cases o with
  | finished => simp [Outcome.code] at h2
  | continued => simp [Outcome.code] at h2
  | thrown e1 =>
    simp only [Outcome.code, Option.some.injEq] at h2
    subst h2
    exact pass_thrown_reset env s u hb

theorem catchReset_control (env : Env W) (s : DState W) :
    (catchReset env s).control ≠ Control.nextPass := by
  unfold catchReset; simp only []; split <;> simp

theorem cycle_none (env : Env W) (s t : DState W) (ht : tryBlock env s = (t, none)) :
    (cycle env s).exit = none ∧ forgetContext (cycle env s).next = forgetContext t := by
  obtain ⟨h1, h2⟩ := pass_none env s t ht
  exact ⟨by rw [cycle_exit, h1]; rfl, h2⟩

theorem cycle_other (env : Env W) (s t : DState W) (e : Nat)
    (ht : tryBlock env s = (t, some e)) (he : e ≠ env.EXCEPTION_IO_RESET) :
    (cycle env s).exit = none ∧
    forgetContext (cycle env s).next = forgetContext (catchOther env e t) := by
  obtain ⟨h1, h2⟩ := pass_other env s t e ht he
  exact ⟨by rw [cycle_exit, h1]; rfl, h2⟩

theorem cycle_reset (env : Env W) (s t : DState W)
    (ht : tryBlock env s = (t, some env.EXCEPTION_IO_RESET)) :
    forgetContext (cycle env s).next = forgetContext t := by
  rw [cycle_next, pass_reset env s t ht]
  exact forgetContext_catchReset env t

theorem ardor_loop_nextPass (env : Env W) (s : DState W) (fuel : Nat)
    (h : (pass env s).control = Control.nextPass) :
    ardor_loop env (fuel + 1) s = ardor_loop env fuel (cycle env s).next := by
  rw [cycle_next]
  rcases hp : pass env s with ⟨n, c⟩
  rw [hp] at h
  simp only at h
  subst h
  simp only [ardor_loop, hp]

theorem ardor_loop_leave (env : Env W) (s : DState W) (fuel : Nat) (e : Nat)
    (h : (pass env s).control = Control.leave e) :
    ardor_loop env (fuel + 1) s = { next := (pass env s).next, exit := some e } := by
  rcases hp : pass env s with ⟨n, c⟩
  rw [hp] at h
  simp only at h
  subst h
  simp only [ardor_loop, hp]

theorem ardor_loop_caughtAgain (env : Env W) (s : DState W) (fuel : Nat)
    (h : (pass env s).control = Control.caughtAgain) :
    ardor_loop env (fuel + 1) s = rethrow env fuel (pass env s).next := by
  rcases hp : pass env s with ⟨n, c⟩
  rw [hp] at h
  simp only at h
  subst h
  simp only [ardor_loop, hp]

/-! ### The clause `CATCH(EXCEPTION_IO_RESET)` -/

theorem catchReset_of_caller (env : Env W) (s : DState W)
    (h : s.previous = TryContext.caller) :
    catchReset env s
      = { next := closeTry s, control := Control.leave env.EXCEPTION_IO_RESET } := by
  have h1 : (closeTry s).try_context = TryContext.caller := h
  simp only [catchReset, h1, if_true]

theorem catchReset_of_loop (env : Env W) (s : DState W)
    (h : s.previous = TryContext.loop) :
    catchReset env s = { next := closeTry s, control := Control.caughtAgain } := by
  have h1 : (closeTry s).try_context ≠ TryContext.caller := by
    show s.previous ≠ TryContext.caller
    rw [h]; decide
  simp only [catchReset, if_neg h1]

/-- Once the remembered context is the loop's own, the clause is entered again
however often: the reset never leaves. -/
theorem rethrow_never_leaves (env : Env W) (fuel : Nat) (s : DState W)
    (h : s.previous = TryContext.loop) :
    (rethrow env fuel s).exit = none := by
  induction fuel generalizing s with
  | zero => rfl
  | succ n ih =>
    simp only [rethrow, catchReset_of_loop env s h]
    exact ih (closeTry s) h

/-- A pass that throws the reset while the caller's context was current at the top
of the pass leaves `ardor_main` with the reset. -/
theorem pass_reset_of_caller (env : Env W) (s t : DState W)
    (ht : tryBlock env s = (t, some env.EXCEPTION_IO_RESET))
    (hp : t.previous = TryContext.caller) :
    pass env s = { next := closeTry t, control := Control.leave env.EXCEPTION_IO_RESET } := by
  rw [pass_reset env s t ht, catchReset_of_caller env t hp]

/-- A pass that throws the reset while the loop's own context was current at the top
of the pass lands in the clause `CATCH(EXCEPTION_IO_RESET)` again. -/
theorem pass_reset_of_loop (env : Env W) (s t : DState W)
    (ht : tryBlock env s = (t, some env.EXCEPTION_IO_RESET))
    (hp : t.previous = TryContext.loop) :
    pass env s = { next := closeTry t, control := Control.caughtAgain } := by
  rw [pass_reset env s t ht, catchReset_of_loop env t hp]

/-- A pass that goes on, followed by a pass that lands in the clause
`CATCH(EXCEPTION_IO_RESET)` again with the loop's own context remembered: the loop
is never left. -/
theorem ardor_loop_never_leaves (env : Env W) (s : DState W)
    (h1 : (pass env s).control = Control.nextPass)
    (h2 : (pass env (pass env s).next).control = Control.caughtAgain)
    (h3 : (pass env (pass env s).next).next.previous = TryContext.loop) (fuel : Nat) :
    (ardor_loop env fuel s).exit = none := by
  cases fuel with
  | zero => rfl
  | succ n =>
    rw [ardor_loop_nextPass env s n h1, cycle_next]
    cases n with
    | zero => rfl
    | succ m =>
      rw [ardor_loop_caughtAgain env _ m h2]
      exact rethrow_never_leaves env m _ h3

/-! ### The canary word does not matter -/

theorem isolate_withCanary (env : Env W) (c : Nat) (d : List DebugLine) (s : DState W) :
    isolate env (withCanary c d s) = withCanary c d (isolate env s) := by
  by_cases h : s.lastCmdNumber ≠ readByte s.G_io_apdu_buffer OFFSET_INS
  · have h' : (withCanary c d s).lastCmdNumber
        ≠ readByte (withCanary c d s).G_io_apdu_buffer OFFSET_INS := h
    rw [isolate, if_pos h', isolate, if_pos h]; rfl
  · have h' : ¬ (withCanary c d s).lastCmdNumber
        ≠ readByte (withCanary c d s).G_io_apdu_buffer OFFSET_INS := h
    rw [isolate, if_neg h', isolate, if_neg h]

theorem finallyBlock_withCanary (c : Nat) (d : List DebugLine) (s : DState W) :
    finallyBlock (withCanary c d s) = withCanary c d (finallyBlock s) := by
  by_cases h : s.try_context = TryContext.loop
  · have h' : (withCanary c d s).try_context = TryContext.loop := h
    rw [finallyBlock, if_pos h', finallyBlock, if_pos h]; rfl
  · have h' : ¬ (withCanary c d s).try_context = TryContext.loop := h
    rw [finallyBlock, if_neg h', finallyBlock, if_neg h]

theorem catchReset_withCanary (env : Env W) (c : Nat) (d : List DebugLine) (s : DState W) :
    catchReset env (withCanary c d s)
      = { next := withCanary c d (catchReset env s).next,
          control := (catchReset env s).control } := by
  by_cases h : (closeTry s).try_context = TryContext.caller
  · have h' : (closeTry (withCanary c d s)).try_context = TryContext.caller := h
    simp only [catchReset, h', h, if_true]; rfl
  · have h' : ¬ (closeTry (withCanary c d s)).try_context = TryContext.caller := h
    simp only [catchReset, if_neg h', if_neg h]; rfl

theorem afterExchange_withCanary (env : Env W) (c : Nat) (d : List DebugLine) (s : DState W) :
    afterExchange env (withCanary c d s)
      = (withCanary c d (afterExchange env s).1, (afterExchange env s).2) := by
  unfold afterExchange
  have e1 : (withCanary c d s).rx = s.rx := rfl
  have e2 : (withCanary c d s).G_io_apdu_buffer = s.G_io_apdu_buffer := rfl
  rw [e1, e2]
  by_cases h1 : s.rx = 0
  · rw [if_pos h1, if_pos h1]
  · rw [if_neg h1, if_neg h1]
    by_cases h2 : CLA ≠ readByte s.G_io_apdu_buffer OFFSET_CLA
    · rw [if_pos h2, if_pos h2]; rfl
    · rw [if_neg h2, if_neg h2]
      simp only []
      rw [isolate_withCanary]
      have e3 : (withCanary c d (isolate env s)).G_io_apdu_buffer
          = (isolate env s).G_io_apdu_buffer := rfl
      rw [e3]
      cases lookupHandler (readByte (isolate env s).G_io_apdu_buffer OFFSET_INS) with
      | none => rfl
      | some h =>
        have e4 : callHandler env h (withCanary c d (isolate env s))
            = (withCanary c d (callHandler env h (isolate env s)).1,
                (callHandler env h (isolate env s)).2) := rfl
        simp only [e4]
        rcases callHandler env h (isolate env s) with ⟨t, x⟩
        cases x <;> rfl

theorem tryBody_withCanary (env : Env W) (c : Nat) (s : DState W) :
    ∃ d, tryBody env { s with STACK_CANARY := c }
      = (withCanary c d (tryBody env s).1, (tryBody env s).2) := by
  cases h : (received env s).thrown with
  | some e =>
    have h' : (received env { s with STACK_CANARY := c }).thrown = some e := h
    rw [tryBody_thrown env s e h, tryBody_thrown env _ e h']
    exact ⟨s.debug, rfl⟩
  | none =>
    have h' : (received env { s with STACK_CANARY := c }).thrown = none := h
    rw [tryBody_returned env s h, tryBody_returned env _ h']
    refine ⟨s.debug ++ [DebugLine.ttt (c == 0xDEADBEEF), DebugLine.asdasd], ?_⟩
    rw [← afterExchange_withCanary]
    rfl

theorem pass_withCanary (env : Env W) (c : Nat) (s : DState W) :
    ∃ d, pass env { s with STACK_CANARY := c }
      = { next := withCanary c d (pass env s).next, control := (pass env s).control } := by
  obtain ⟨d, hd⟩ := tryBody_withCanary env c s
  refine ⟨d, ?_⟩
  rcases hb : tryBody env s with ⟨u, o⟩
  rw [hb] at hd
  cases o with
  | finished =>
    rw [pass_finished env _ _ hd, pass_finished env s u hb, finallyBlock_withCanary]
  | continued =>
    rw [pass_continued env _ _ hd, pass_continued env s u hb]
  | thrown e =>
    by_cases he : e = env.EXCEPTION_IO_RESET
    · subst he
      rw [pass_thrown_reset env _ _ hd, pass_thrown_reset env s u hb, catchReset_withCanary]
    · rw [pass_thrown_other env _ _ e hd he, pass_thrown_other env s u e hb he]
      have e1 : catchOther env e (withCanary c d u) = withCanary c d (catchOther env e u) := rfl
      rw [e1, finallyBlock_withCanary]

theorem cycle_withCanary (env : Env W) (c : Nat) (s : DState W) :
    ∃ d, cycle env { s with STACK_CANARY := c }
      = { next := withCanary c d (cycle env s).next, exit := (cycle env s).exit } := by
  obtain ⟨d, hd⟩ := pass_withCanary env c s
  refine ⟨d, ?_⟩
  simp only [cycle, hd]

/-! ### The writer invariant -/

theorem and_0xFF (e : Nat) : e &&& 0xFF = e % 256 :=
  Nat.and_pow_two_sub_one_eq_mod e 8

theorem demoEnv_framerStoresCode : FramerStoresCode demoEnv := by
  intro answer tx buf
  constructor
  · simp [demoEnv, specFramer, readByte, writeByte]
  · intro i hi
    have h1 : i ≠ tx := by omega
    have h2 : i ≠ tx + 1 := by omega
    have h3 : i ≠ tx + 2 := by omega
    simp [demoEnv, specFramer, writeByte, h1, h2, h3]

theorem good_of_forgetContext (a b : DState W) (h : forgetContext a = forgetContext b)
    (hb : Good b) : Good a := by
  have hw : a.writer = b.writer := fc_writer a b h
  have hl : a.lastCmdNumber = b.lastCmdNumber := fc_lastCmdNumber a b h
  have ht : a.trace = b.trace := fc_trace a b h
  unfold Good WriterInv at *
  rw [hw, hl, ht]
  exact hb

theorem good_append (s t : DState W) (evs : List Event)
    (hw : WriterInv t) (ht : t.trace = s.trace ++ evs) (hs : Good s)
    (hev : ∀ ev ∈ evs, ev.isolated) : Good t := by
  refine ⟨hw, ?_⟩
  intro ev hmem
  rw [ht, List.mem_append] at hmem
  rcases hmem with h | h
  · exact hs.2 ev h
  · exact hev ev h

theorem good_atDispatch (env : Env W) (s : DState W) (hs : Good s) :
    Good (atDispatch env s) :=
  good_append s _ [Event.exchange (env.CHANNEL_APDU ||| s.flags) s.tx] hs.1 rfl hs
    (by intro ev h; rw [List.mem_singleton] at h; subst h; trivial)

theorem good_doExchange (env : Env W) (s : DState W) (hs : Good s) :
    Good (doExchange env (openTry s)).1 :=
  good_append s _ [Event.exchange (env.CHANNEL_APDU ||| s.flags) s.tx] hs.1 rfl hs
    (by intro ev h; rw [List.mem_singleton] at h; subst h; trivial)

theorem good_callFillBuffer (env : Env W) (a : Nat) (s : DState W) (hs : Good s) :
    Good (callFillBuffer env a s) :=
  good_append s _ [Event.fillBuffer a s.tx] hs.1 rfl hs
    (by intro ev h; rw [List.mem_singleton] at h; subst h; trivial)

theorem good_isolate (env : Env W) (s : DState W) (hs : Good s) :
    Good (isolate env s) := by
  unfold isolate
  split
  · exact good_append s _ [Event.cleanSharedState] (Or.inl rfl) rfl hs
      (by intro ev h; rw [List.mem_singleton] at h; subst h; trivial)
  · exact hs

theorem good_catchOther (env : Env W) (e : Nat) (s : DState W) (hs : Good s) :
    Good (catchOther env e s) :=
  good_append s _ [Event.cleanSharedState, Event.fillBuffer (e &&& 0xFF) 2] (Or.inl rfl)
    (by simp [catchOther, callFillBuffer, cleanSharedState, closeTry]) hs
    (by
      intro ev h
      simp only [List.mem_cons, List.mem_singleton, List.not_mem_nil, or_false] at h
      rcases h with h | h <;> subst h <;> trivial)

theorem good_callHandler (env : Env W) (h : Handler) (s : DState W) (hs : Good s)
    (hh : lookupHandler s.lastCmdNumber = some h) :
    Good (callHandler env h s).1 := by
  refine good_append s _
    [Event.handlerFn h (readByte s.G_io_apdu_buffer OFFSET_P1)
      (readByte s.G_io_apdu_buffer OFFSET_P2) (readByte s.G_io_apdu_buffer OFFSET_LC)
      s.state s.writer] (Or.inr hh) rfl hs ?_
  intro ev hev
  rw [List.mem_singleton] at hev
  subst hev
  rcases hs.1 with hw | hw
  · exact Or.inl hw
  · exact Or.inr (hw.symm.trans hh)

theorem good_afterExchange (env : Env W) (s : DState W) (hs : Good s) :
    Good (afterExchange env s).1 := by
  unfold afterExchange
  split
  · exact hs
  · split
    · exact good_callFillBuffer env _ s hs
    · simp only []
      split
      · exact good_callFillBuffer env _ _ (good_isolate env s hs)
      · rename_i h hh
        have hg : Good (callHandler env h (isolate env s)).1 := by
          refine good_callHandler env h _ (good_isolate env s hs) ?_
          rw [isolate_lastCmdNumber, ← isolate_buf env s]
          exact hh
        rcases hc : callHandler env h (isolate env s) with ⟨t, x⟩
        rw [hc] at hg
        cases x <;> exact hg

theorem good_tryBlock (env : Env W) (s : DState W) (hs : Good s) :
    Good (tryBlock env s).1 := by
  show Good (tryBody env s).1
  cases h : (received env s).thrown with
  | some e =>
    rw [tryBody_thrown env s e h]
    exact good_doExchange env s hs
  | none =>
    rw [tryBody_returned env s h]
    exact good_afterExchange env _ (good_atDispatch env s hs)

theorem good_pass (env : Env W) (s : DState W) (hs : Good s) :
    Good (pass env s).next := by
  have ht := good_tryBlock env s hs
  rcases hb : tryBlock env s with ⟨t, x⟩
  rw [hb] at ht
  cases x with
  | none => exact good_of_forgetContext _ _ (pass_none env s t hb).2 ht
  | some e =>
    by_cases he : e = env.EXCEPTION_IO_RESET
    · subst he
      rw [pass_reset env s t hb]
      exact good_of_forgetContext _ _ (forgetContext_catchReset env t) ht
    · exact good_of_forgetContext _ _ (pass_other env s t e hb he).2
        (good_catchOther env e t ht)

theorem good_rethrow (env : Env W) (fuel : Nat) (s : DState W) (hs : Good s) :
    Good (rethrow env fuel s).next := by
  induction fuel generalizing s with
  | zero => exact hs
  | succ n ih =>
    have hg : Good (catchReset env s).next :=
      good_of_forgetContext _ _ (forgetContext_catchReset env s) hs
    rcases hc : catchReset env s with ⟨t, c⟩
    rw [hc] at hg
    cases c with
    | nextPass => simp only [rethrow, hc]; exact ih t hg
    | leave e => simp only [rethrow, hc]; exact hg
    | caughtAgain => simp only [rethrow, hc]; exact ih t hg

theorem good_ardor_loop (env : Env W) (fuel : Nat) (s : DState W) (hs : Good s) :
    Good (ardor_loop env fuel s).next := by
  induction fuel generalizing s with
  | zero => exact hs
  | succ n ih =>
    have hg := good_pass env s hs
    cases hc : (pass env s).control with
    | nextPass =>
      rw [ardor_loop_nextPass env s n hc]
      exact ih _ hg
    | leave e =>
      rw [ardor_loop_leave env s n e hc]
      exact hg
    | caughtAgain =>
      rw [ardor_loop_caughtAgain env s n hc]
      exact good_rethrow env n _ hg

/-- The `TRY` block when the opcode of the received frame is `lastCmdNumber` and has
the handler `h`: the handler is called on the state as it is. -/
theorem tryBlock_same_opcode (env : Env W) (s : DState W) (h : Handler)
    (hret : (received env s).thrown = none) (hrx : (received env s).rx ≠ 0)
    (hcla : readByte (received env s).buf OFFSET_CLA = CLA)
    (hh : lookupHandler (readByte (received env s).buf OFFSET_INS) = some h)
    (heq : readByte (received env s).buf OFFSET_INS = s.lastCmdNumber) :
    tryBlock env s = callHandler env h (atDispatch env s) := by
  have hi : isolate env (atDispatch env s) = atDispatch env s := by
    unfold isolate
    rw [if_neg]
    simp [heq]
  rw [tryBlock_handler env s h hret hrx hcla hh, hi]

/-- The data of the state after a pass, in terms of the `TRY` block: a field that
`CATCH_OTHER` leaves alone has the value the `TRY` block gave it. -/
theorem cycle_lastCmdNumber (env : Env W) (s : DState W) :
    (cycle env s).next.lastCmdNumber = (tryBlock env s).1.lastCmdNumber := by
  rcases hb : tryBlock env s with ⟨t, x⟩
  cases x with
  | none => exact fc_lastCmdNumber _ _ (cycle_none env s t hb).2
  | some e =>
    by_cases he : e = env.EXCEPTION_IO_RESET
    · subst he
      exact fc_lastCmdNumber _ _ (cycle_reset env s t hb)
    · exact fc_lastCmdNumber _ (catchOther env e t) (cycle_other env s t e hb he).2

/-- The marker after a pass that called a handler. -/
theorem cycle_handler_lastCmdNumber (env : Env W) (s : DState W) (h : Handler)
    (hret : (received env s).thrown = none) (hrx : (received env s).rx ≠ 0)
    (hcla : readByte (received env s).buf OFFSET_CLA = CLA)
    (hh : lookupHandler (readByte (received env s).buf OFFSET_INS) = some h) :
    (cycle env s).next.lastCmdNumber = readByte (received env s).buf OFFSET_INS := by
  rw [cycle_lastCmdNumber, tryBlock_handler env s h hret hrx hcla hh]
  exact isolate_lastCmdNumber env (atDispatch env s)

/-- The pass when the exchange returned a frame of the wrong class. -/
theorem pass_bad_class (env : Env W) (s : DState W)
    (hret : (received env s).thrown = none) (hrx : (received env s).rx ≠ 0)
    (hcla : readByte (received env s).buf OFFSET_CLA ≠ CLA) :
    pass env s =
      { next := callFillBuffer env env.R_BAD_CLA (atDispatch env s),
        control := Control.nextPass } :=
  pass_continued env s _ (tryBody_bad_class env s hret hrx hcla)

/-- The pass when the exchange returned a frame of class `CLA` with an opcode that
has no handler. -/
theorem pass_unknown (env : Env W) (s : DState W)
    (hret : (received env s).thrown = none) (hrx : (received env s).rx ≠ 0)
    (hcla : readByte (received env s).buf OFFSET_CLA = CLA)
    (hno : lookupHandler (readByte (received env s).buf OFFSET_INS) = none) :
    pass env s =
      { next := callFillBuffer env env.R_UNKOWN_CMD (isolate env (atDispatch env s)),
        control := Control.nextPass } :=
  pass_continued env s _ (tryBody_unknown env s hret hrx hcla hno)

end Basic

/-! ## Properties of the dispatcher -/

section Properties

variable {W : Type}

/-- C1: when the exchange returns a frame (`rx > 0`) of class `0xE0` whose opcode has
a handler and differs from `lastCmdNumber`, `cleanSharedState()` is called before
the handler and the handler finds `state` all-zero, with no writer, whatever
`state` held before.  Consequently, in every run of the loop (and of `ardor_main`)
from a state in which `state` was last written by the handler of `lastCmdNumber`
or by none, every handler call finds a `state` that no other handler has written
to since it was zeroed, and this holds again for the state the run ends in. -/
theorem state_isolation (env : Env W) :
    (∀ (s : DState W) (h : Handler),
      (received env s).thrown = none → 0 < (received env s).rx →
      readByte (received env s).buf OFFSET_CLA = 0xE0 →
      lookupHandler (readByte (received env s).buf OFFSET_INS) = some h →
      readByte (received env s).buf OFFSET_INS ≠ s.lastCmdNumber →
      (tryBlock env s).1.trace
        = s.trace ++ [Event.exchange (env.CHANNEL_APDU ||| s.flags) s.tx,
            Event.cleanSharedState,
            Event.handlerFn h (readByte (received env s).buf OFFSET_P1)
              (readByte (received env s).buf OFFSET_P2)
              (readByte (received env s).buf OFFSET_LC)
              (List.replicate env.sizeof_state 0) none] ∧
      (∃ rest, (cycle env s).next.trace = (tryBlock env s).1.trace ++ rest) ∧
      (cycle env s).next.lastCmdNumber = readByte (received env s).buf OFFSET_INS) ∧
    (∀ (s : DState W) (fuel : Nat), WriterInv s → (∀ ev ∈ s.trace, ev.isolated) →
      (∀ ev ∈ (ardor_loop env fuel s).next.trace, ev.isolated) ∧
      WriterInv (ardor_loop env fuel s).next ∧
      (∀ ev ∈ (ardor_main env fuel s).next.trace, ev.isolated) ∧
      WriterInv (ardor_main env fuel s).next) := by
  constructor
  · intro s h hret hrx hcla hh hne
    have hrx' := Nat.pos_iff_ne_zero.mp hrx
    have ht := tryBlock_handler env s h hret hrx' hcla hh
    have hi : isolate env (atDispatch env s)
        = { cleanSharedState env (atDispatch env s) with
            lastCmdNumber := readByte (received env s).buf OFFSET_INS } := by
      unfold isolate
      rw [if_pos]
      · rfl
      · simpa using Ne.symm hne
    have htr : (tryBlock env s).1.trace
        = s.trace ++ [Event.exchange (env.CHANNEL_APDU ||| s.flags) s.tx,
            Event.cleanSharedState,
            Event.handlerFn h (readByte (received env s).buf OFFSET_P1)
              (readByte (received env s).buf OFFSET_P2)
              (readByte (received env s).buf OFFSET_LC)
              (List.replicate env.sizeof_state 0) none] := by
      rw [ht, hi]
      simp [callHandler, cleanSharedState, zeroState]
    have hl : (tryBlock env s).1.lastCmdNumber = readByte (received env s).buf OFFSET_INS := by
      rw [ht, hi]; rfl
    refine ⟨htr, ?_, ?_⟩
    · rcases hb : tryBlock env s with ⟨t, x⟩
      cases x with
      | none =>
        exact ⟨[], by rw [fc_trace _ t (cycle_none env s t hb).2]; simp⟩
      | some e =>
        by_cases he : e = env.EXCEPTION_IO_RESET
        · subst he
          exact ⟨[], by rw [fc_trace _ t (cycle_reset env s t hb)]; simp⟩
        · exact ⟨[Event.cleanSharedState, Event.fillBuffer (e &&& 0xFF) 2], by
            rw [fc_trace _ (catchOther env e t) (cycle_other env s t e hb he).2]
            simp [catchOther, callFillBuffer, cleanSharedState, closeTry]⟩
    · rw [cycle_lastCmdNumber]
      exact hl
  · intro s fuel hw htr
    have h1 := good_ardor_loop env fuel s ⟨hw, htr⟩
    have h2 : Good (ardor_main env fuel s).next :=
      good_ardor_loop env fuel _ ⟨hw, htr⟩
    exact ⟨h1.2, h1.1, h2.2, h2.1⟩

/-- Witness for C1: get-public-keys after get-version left `state = [1, 9]`. -/
theorem state_isolation_witness :
    changeInput.state = [1, 9] ∧ changeInput.lastCmdNumber = 1 ∧
    (tryBlock demoEnv changeInput).1.trace
      = [Event.exchange 0 0, Event.cleanSharedState,
         Event.handlerFn Handler.getPublicKeyHandler 0 5 0 [0, 0] none] ∧
    (∀ ev ∈ (ardor_loop demoEnv 2 repeatInput).next.trace, ev.isolated) :=
  have h := (state_isolation demoEnv).1 changeInput Handler.getPublicKeyHandler
    (by decide) (by decide) (by decide) (by decide) (by decide)
  have g := (state_isolation demoEnv).2 repeatInput 2 (by decide) (by decide)
  ⟨by decide, by decide, h.1, g.1⟩

/-- C2: when an exception code `e` other than `EXCEPTION_IO_RESET` is thrown in the
`TRY` block (by the exchange or by the handler), the pass ends with `state`
all-zero, `tx` was reset to 0 and two bytes were stored at offsets 0 and 1:
`R_EXCEPTION` and the high byte of `e`; then the Response Framer is called with the
low byte of `e` at output length 2, and the loop goes on.  Neither the result nor
the calls depend on the `tx` and `flags` left by the handler.  With a framer that
stores the code at the cursor, the response starts with
`[R_EXCEPTION, high byte, low byte]`, which is `[R_EXCEPTION, 0x6A, 0x80]` for
`e = 0x6A80`. -/
theorem fault_translation (env : Env W) (s : DState W) (e : Nat)
    (hthrow : (tryBlock env s).2 = some e) (hne : e ≠ env.EXCEPTION_IO_RESET)
    (hR : env.R_EXCEPTION < 256) :
    (cycle env s).next.state = List.replicate env.sizeof_state 0 ∧
    (cycle env s).next.trace
      = (tryBlock env s).1.trace ++ [Event.cleanSharedState, Event.fillBuffer (e % 256) 2] ∧
    (cycle env s).next.G_io_apdu_buffer
      = env.fillBufferWithAnswerAndEnding (e % 256) 2
          (writeByte (writeByte (tryBlock env s).1.G_io_apdu_buffer 0 env.R_EXCEPTION)
            1 (e >>> 8)) ∧
    readByte (writeByte (writeByte (tryBlock env s).1.G_io_apdu_buffer 0 env.R_EXCEPTION)
        1 (e >>> 8)) 0 = env.R_EXCEPTION ∧
    readByte (writeByte (writeByte (tryBlock env s).1.G_io_apdu_buffer 0 env.R_EXCEPTION)
        1 (e >>> 8)) 1 = (e >>> 8) % 256 ∧
    (cycle env s).next.tx = 2 ∧
    (cycle env s).next.flags = 0 ∧
    (cycle env s).exit = none ∧
    (∀ fuel, ardor_loop env (fuel + 1) s = ardor_loop env fuel (cycle env s).next) ∧
    (FramerStoresCode env →
      readByte (cycle env s).next.G_io_apdu_buffer 0 = env.R_EXCEPTION ∧
      readByte (cycle env s).next.G_io_apdu_buffer 1 = (e >>> 8) % 256 ∧
      readByte (cycle env s).next.G_io_apdu_buffer 2 = e % 256) ∧
    (FramerStoresCode env → e = 0x6A80 →
      [readByte (cycle env s).next.G_io_apdu_buffer 0,
       readByte (cycle env s).next.G_io_apdu_buffer 1,
       readByte (cycle env s).next.G_io_apdu_buffer 2] = [env.R_EXCEPTION, 0x6A, 0x80]) := by
  rcases ht : tryBlock env s with ⟨t, x⟩
  rw [ht] at hthrow
  simp only at hthrow
  subst hthrow
  have hc := (cycle_other env s t e ht hne).2
  have hx : (cycle env s).exit = none := (cycle_other env s t e ht hne).1
  have hbuf : (cycle env s).next.G_io_apdu_buffer
      = env.fillBufferWithAnswerAndEnding (e % 256) 2
          (writeByte (writeByte t.G_io_apdu_buffer 0 env.R_EXCEPTION) 1 (e >>> 8)) := by
    rw [fc_buf _ (catchOther env e t) hc]
    simp only [catchOther, callFillBuffer, cleanSharedState, closeTry, and_0xFF]
  have hb0 : readByte (writeByte (writeByte t.G_io_apdu_buffer 0 env.R_EXCEPTION)
      1 (e >>> 8)) 0 = env.R_EXCEPTION := by
    simp [readByte, writeByte, Nat.mod_eq_of_lt hR]
  have hb1 : readByte (writeByte (writeByte t.G_io_apdu_buffer 0 env.R_EXCEPTION)
      1 (e >>> 8)) 1 = (e >>> 8) % 256 := by
    simp [readByte, writeByte]
  have hfin : FramerStoresCode env →
      readByte (cycle env s).next.G_io_apdu_buffer 0 = env.R_EXCEPTION ∧
      readByte (cycle env s).next.G_io_apdu_buffer 1 = (e >>> 8) % 256 ∧
      readByte (cycle env s).next.G_io_apdu_buffer 2 = e % 256 := by
    intro hf
    obtain ⟨h2, hlow⟩ := hf (e % 256) 2
      (writeByte (writeByte t.G_io_apdu_buffer 0 env.R_EXCEPTION) 1 (e >>> 8))
    rw [hbuf]
    refine ⟨?_, ?_, ?_⟩
    · have h0 : readByte (env.fillBufferWithAnswerAndEnding (e % 256) 2
          (writeByte (writeByte t.G_io_apdu_buffer 0 env.R_EXCEPTION) 1 (e >>> 8))) 0
          = readByte (writeByte (writeByte t.G_io_apdu_buffer 0 env.R_EXCEPTION)
              1 (e >>> 8)) 0 := by
        simp only [readByte]
        rw [hlow 0 (by decide)]
      rw [h0]
      exact hb0
    · have h1 : readByte (env.fillBufferWithAnswerAndEnding (e % 256) 2
          (writeByte (writeByte t.G_io_apdu_buffer 0 env.R_EXCEPTION) 1 (e >>> 8))) 1
          = readByte (writeByte (writeByte t.G_io_apdu_buffer 0 env.R_EXCEPTION)
              1 (e >>> 8)) 1 := by
        simp only [readByte]
        rw [hlow 1 (by decide)]
      rw [h1]
      exact hb1
    · rw [h2]
      exact Nat.mod_mod _ _
  refine ⟨?_, ?_, hbuf, hb0, hb1, ?_, ?_, hx,
    fun fuel => ardor_loop_nextPass env s fuel (pass_other env s t e ht hne).1, hfin, ?_⟩
  · rw [fc_state _ (catchOther env e t) hc]; rfl
  · rw [fc_trace _ (catchOther env e t) hc]
    simp [catchOther, callFillBuffer, cleanSharedState, closeTry, and_0xFF]
  · rw [fc_tx _ (catchOther env e t) hc]; rfl
  · rw [fc_flags _ (catchOther env e t) hc]; rfl
  · intro hf he
    obtain ⟨a0, a1, a2⟩ := hfin hf
    subst he
    rw [a0, a1, a2]
    rfl

/-- Witness for C2: the get-public-keys handler throws `0x6A80` after it has written
to `state`, `flags` and `tx`. -/
theorem fault_translation_witness :
    (tryBlock demoEnv faultInput).1.state = [2, 5] ∧
    (tryBlock demoEnv faultInput).1.tx = 7 ∧
    (tryBlock demoEnv faultInput).1.flags = 0x10 ∧
    (cycle demoEnv faultInput).next.state = [0, 0] ∧
    (cycle demoEnv faultInput).next.tx = 2 ∧
    (cycle demoEnv faultInput).next.flags = 0 ∧
    (cycle demoEnv faultInput).exit = none ∧
    [readByte (cycle demoEnv faultInput).next.G_io_apdu_buffer 0,
     readByte (cycle demoEnv faultInput).next.G_io_apdu_buffer 1,
     readByte (cycle demoEnv faultInput).next.G_io_apdu_buffer 2] = [14, 0x6A, 0x80] :=
  have h := fault_translation demoEnv faultInput 0x6A80 (by decide) (by decide) (by decide)
  ⟨by decide, by decide, by decide, h.1, h.2.2.2.2.2.1, h.2.2.2.2.2.2.1, h.2.2.2.2.2.2.2.1,
    h.2.2.2.2.2.2.2.2.2.2 demoEnv_framerStoresCode rfl⟩

/-- C3: when the exchange returns a frame (`rx > 0`) whose class byte is not `0xE0`,
whatever the opcode byte, the pass calls the Response Framer with `R_BAD_CLA` at
output length 0 and nothing else (no handler, no clearing), the buffer is the
received one with the framer applied, `state` and `lastCmdNumber` are unchanged,
and the loop goes on with the next pass. -/
theorem bad_class_response (env : Env W) (s : DState W)
    (hret : (received env s).thrown = none) (hrx : 0 < (received env s).rx)
    (hcla : readByte (received env s).buf OFFSET_CLA ≠ 0xE0) :
    (cycle env s).next.trace
      = s.trace ++ [Event.exchange (env.CHANNEL_APDU ||| s.flags) s.tx,
                    Event.fillBuffer env.R_BAD_CLA 0] ∧
    (cycle env s).next.G_io_apdu_buffer
      = env.fillBufferWithAnswerAndEnding env.R_BAD_CLA 0 (received env s).buf ∧
    (cycle env s).next.state = s.state ∧
    (cycle env s).next.lastCmdNumber = s.lastCmdNumber ∧
    (cycle env s).next.writer = s.writer ∧
    (cycle env s).exit = none ∧
    (∀ fuel, ardor_loop env (fuel + 1) s = ardor_loop env fuel (cycle env s).next) := by
  have hp := pass_bad_class env s hret (Nat.pos_iff_ne_zero.mp hrx) hcla
  have hc : cycle env s
      = { next := callFillBuffer env env.R_BAD_CLA (atDispatch env s), exit := none } := by
    simp only [cycle, hp, Control.exit]
  have hx : (cycle env s).exit = none := by rw [hc]
  refine ⟨?_, ?_, ?_, ?_, ?_, hx,
    fun fuel => ardor_loop_nextPass env s fuel (by rw [hp])⟩
  · rw [hc]; simp [callFillBuffer]
  · rw [hc]; rfl
  · rw [hc]; rfl
  · rw [hc]; rfl
  · rw [hc]; rfl

/-- Witness for C3: a frame of class `0xE1` with opcode `0x01`. -/
theorem bad_class_response_witness :
    (received demoEnv badClassInput).thrown = none ∧
    readByte (received demoEnv badClassInput).buf OFFSET_CLA = 0xE1 ∧
    (cycle demoEnv badClassInput).next.trace = [Event.exchange 0 0, Event.fillBuffer 1 0] ∧
    (cycle demoEnv badClassInput).next.state = [1, 9] ∧
    (cycle demoEnv badClassInput).next.lastCmdNumber = 1 ∧
    (cycle demoEnv badClassInput).exit = none :=
  have h := bad_class_response demoEnv badClassInput (by decide) (by decide) (by decide)
  ⟨by decide, by decide, h.1, h.2.2.1, h.2.2.2.1, h.2.2.2.2.2.1⟩

/-- C4 as stated fails: a frame of class `0xE0` with the unknown opcode `0x07`,
received while `lastCmdNumber = 1` and `state = [1, 9]`, gets the unknown-command
response, but `cleanSharedState()` runs first: `state` becomes `[0, 0]` and
`lastCmdNumber` becomes `7`. -/
theorem unknown_command_clears_state :
    (received demoEnv unknownInput).thrown = none ∧
    0 < (received demoEnv unknownInput).rx ∧
    readByte (received demoEnv unknownInput).buf OFFSET_CLA = 0xE0 ∧
    readByte (received demoEnv unknownInput).buf OFFSET_INS = 0x07 ∧
    lookupHandler 0x07 = none ∧
    unknownInput.state = [1, 9] ∧
    unknownInput.lastCmdNumber = 1 ∧
    (cycle demoEnv unknownInput).next.trace
      = [Event.exchange 0 0, Event.cleanSharedState, Event.fillBuffer demoEnv.R_UNKOWN_CMD 0] ∧
    (cycle demoEnv unknownInput).next.state = [0, 0] ∧
    (cycle demoEnv unknownInput).next.state ≠ unknownInput.state ∧
    (cycle demoEnv unknownInput).next.lastCmdNumber = 7 := by
  decide

/-- C4, amended: when the exchange returns a frame (`rx > 0`) of class `0xE0` whose
opcode has no handler, the pass calls the Response Framer with `R_UNKOWN_CMD` at
output length 0, calls no handler and the loop goes on.  When the opcode equals
`lastCmdNumber`, `state` and `lastCmdNumber` are untouched and nothing else is
called; when it differs, `cleanSharedState()` is called before the framer, `state`
ends all-zero and `lastCmdNumber` ends equal to the opcode. -/
theorem unknown_command_response (env : Env W) (s : DState W)
    (hret : (received env s).thrown = none) (hrx : 0 < (received env s).rx)
    (hcla : readByte (received env s).buf OFFSET_CLA = 0xE0)
    (hno : lookupHandler (readByte (received env s).buf OFFSET_INS) = none) :
    (cycle env s).exit = none ∧
    (∀ fuel, ardor_loop env (fuel + 1) s = ardor_loop env fuel (cycle env s).next) ∧
    (cycle env s).next.G_io_apdu_buffer
      = env.fillBufferWithAnswerAndEnding env.R_UNKOWN_CMD 0 (received env s).buf ∧
    (cycle env s).next.tx = 0 ∧
    (readByte (received env s).buf OFFSET_INS = s.lastCmdNumber →
      (cycle env s).next.trace
        = s.trace ++ [Event.exchange (env.CHANNEL_APDU ||| s.flags) s.tx,
                      Event.fillBuffer env.R_UNKOWN_CMD 0] ∧
      (cycle env s).next.state = s.state ∧
      (cycle env s).next.lastCmdNumber = s.lastCmdNumber) ∧
    (readByte (received env s).buf OFFSET_INS ≠ s.lastCmdNumber →
      (cycle env s).next.trace
        = s.trace ++ [Event.exchange (env.CHANNEL_APDU ||| s.flags) s.tx,
                      Event.cleanSharedState,
                      Event.fillBuffer env.R_UNKOWN_CMD 0] ∧
      (cycle env s).next.state = List.replicate env.sizeof_state 0 ∧
      (cycle env s).next.lastCmdNumber = readByte (received env s).buf OFFSET_INS) := by
  have hp := pass_unknown env s hret (Nat.pos_iff_ne_zero.mp hrx) hcla hno
  have hc : cycle env s
      = { next := callFillBuffer env env.R_UNKOWN_CMD (isolate env (atDispatch env s)),
          exit := none } := by
    simp only [cycle, hp, Control.exit]
  have hx : (cycle env s).exit = none := by rw [hc]
  refine ⟨hx, fun fuel => ardor_loop_nextPass env s fuel (by rw [hp]), ?_, ?_, ?_, ?_⟩
  · rw [hc]
    simp only [callFillBuffer, isolate]
    split <;> rfl
  · rw [hc]
    simp only [callFillBuffer, isolate]
    split <;> rfl
  · intro heq
    have hi : isolate env (atDispatch env s) = atDispatch env s := by
      unfold isolate
      rw [if_neg]
      simp [heq]
    rw [hc, hi]
    refine ⟨?_, rfl, rfl⟩
    simp [callFillBuffer]
  · intro hne
    have hi : isolate env (atDispatch env s)
        = { cleanSharedState env (atDispatch env s) with
            lastCmdNumber := readByte (received env s).buf OFFSET_INS } := by
      unfold isolate
      rw [if_pos]
      · rfl
      · simpa using Ne.symm hne
    rw [hc, hi]
    refine ⟨?_, rfl, rfl⟩
    simp [callFillBuffer, cleanSharedState]

/-- Witness for the amended C4: the unknown opcode `0x07` after opcode `0x01`. -/
theorem unknown_command_response_witness :
    (received demoEnv unknownInput).thrown = none ∧
    lookupHandler (readByte (received demoEnv unknownInput).buf OFFSET_INS) = none ∧
    (cycle demoEnv unknownInput).exit = none ∧
    (cycle demoEnv unknownInput).next.tx = 0 :=
  have h := unknown_command_response demoEnv unknownInput
    (by decide) (by decide) (by decide) (by decide)
  ⟨by decide, by decide, h.1, h.2.2.2.1⟩

/-- C5 as stated fails: two consecutive get-public-keys requests; the first handler
call writes `[2, 5]` to `state` and throws `0x6A80`, the fault path calls
`cleanSharedState()`, and the second handler call finds `[0, 0]`. -/
theorem fault_clears_between_same_opcode :
    readByte (received demoEnv repeatFaultInput).buf OFFSET_CLA = 0xE0 ∧
    readByte (received demoEnv repeatFaultInput).buf OFFSET_INS = 0x02 ∧
    readByte (received demoEnv (cycle demoEnv repeatFaultInput).next).buf OFFSET_CLA = 0xE0 ∧
    readByte (received demoEnv (cycle demoEnv repeatFaultInput).next).buf OFFSET_INS = 0x02 ∧
    (tryBlock demoEnv repeatFaultInput).1.state = [2, 5] ∧
    (tryBlock demoEnv repeatFaultInput).2 = some 0x6A80 ∧
    (cycle demoEnv repeatFaultInput).exit = none ∧
    (cycle demoEnv repeatFaultInput).next.lastCmdNumber = 0x02 ∧
    (ardor_loop demoEnv 2 repeatFaultInput).next.trace
      = [Event.exchange 0 0, Event.cleanSharedState,
         Event.handlerFn Handler.getPublicKeyHandler 0xFF 5 0 [0, 0] none,
         Event.cleanSharedState, Event.fillBuffer 0x80 2,
         Event.exchange 0 2,
         Event.handlerFn Handler.getPublicKeyHandler 0 6 0 [0, 0] none] := by
  decide

/-- C5, amended: when the exchange returns a frame (`rx > 0`) of class `0xE0` whose
opcode equals `lastCmdNumber` and has a handler, `cleanSharedState()` is not called
before the handler, which finds `state` as it was at the start of the pass.  So for
two consecutive passes of the loop that receive the same opcode, the second handler
call finds the `state` the first pass ended with: that is the `state` the first
handler call left when it returned without throwing, and the all-zero `state` when
it threw (a throw after which the loop goes on is not the reset). -/
theorem continuation_same_opcode (env : Env W) :
    (∀ (s : DState W) (h : Handler),
      (received env s).thrown = none → 0 < (received env s).rx →
      readByte (received env s).buf OFFSET_CLA = 0xE0 →
      lookupHandler (readByte (received env s).buf OFFSET_INS) = some h →
      readByte (received env s).buf OFFSET_INS = s.lastCmdNumber →
      (tryBlock env s).1.trace
        = s.trace ++ [Event.exchange (env.CHANNEL_APDU ||| s.flags) s.tx,
            Event.handlerFn h (readByte (received env s).buf OFFSET_P1)
              (readByte (received env s).buf OFFSET_P2)
              (readByte (received env s).buf OFFSET_LC) s.state s.writer]) ∧
    (∀ (s : DState W) (h : Handler),
      (received env s).thrown = none → 0 < (received env s).rx →
      readByte (received env s).buf OFFSET_CLA = 0xE0 →
      lookupHandler (readByte (received env s).buf OFFSET_INS) = some h →
      (pass env s).control = Control.nextPass →
      (received env (cycle env s).next).thrown = none →
      0 < (received env (cycle env s).next).rx →
      readByte (received env (cycle env s).next).buf OFFSET_CLA = 0xE0 →
      readByte (received env (cycle env s).next).buf OFFSET_INS
        = readByte (received env s).buf OFFSET_INS →
      (tryBlock env s).1.state = (callHandler env h (isolate env (atDispatch env s))).1.state ∧
      (tryBlock env (cycle env s).next).1.trace
        = (cycle env s).next.trace ++
          [Event.exchange (env.CHANNEL_APDU ||| (cycle env s).next.flags) (cycle env s).next.tx,
           Event.handlerFn h (readByte (received env (cycle env s).next).buf OFFSET_P1)
             (readByte (received env (cycle env s).next).buf OFFSET_P2)
             (readByte (received env (cycle env s).next).buf OFFSET_LC)
             (cycle env s).next.state (cycle env s).next.writer] ∧
      ((tryBlock env s).2 = none → (cycle env s).next.state = (tryBlock env s).1.state) ∧
      ((tryBlock env s).2 ≠ none →
        (cycle env s).next.state = List.replicate env.sizeof_state 0)) := by
  have part1 : ∀ (s : DState W) (h : Handler),
      (received env s).thrown = none → 0 < (received env s).rx →
      readByte (received env s).buf OFFSET_CLA = 0xE0 →
      lookupHandler (readByte (received env s).buf OFFSET_INS) = some h →
      readByte (received env s).buf OFFSET_INS = s.lastCmdNumber →
      (tryBlock env s).1.trace
        = s.trace ++ [Event.exchange (env.CHANNEL_APDU ||| s.flags) s.tx,
            Event.handlerFn h (readByte (received env s).buf OFFSET_P1)
              (readByte (received env s).buf OFFSET_P2)
              (readByte (received env s).buf OFFSET_LC) s.state s.writer] := by
    intro s h hret hrx hcla hh heq
    rw [tryBlock_same_opcode env s h hret (Nat.pos_iff_ne_zero.mp hrx) hcla hh heq]
    simp [callHandler]
  refine ⟨part1, ?_⟩
  intro s h hret hrx hcla hh hx hret1 hrx1 hcla1 hsame
  have hrx' := Nat.pos_iff_ne_zero.mp hrx
  have hlast := cycle_handler_lastCmdNumber env s h hret hrx' hcla hh
  refine ⟨by rw [tryBlock_handler env s h hret hrx' hcla hh], ?_, ?_, ?_⟩
  · exact part1 (cycle env s).next h hret1 hrx1 hcla1 (by rw [hsame]; exact hh)
      (by rw [hsame, hlast])
  · intro hn
    rcases hb : tryBlock env s with ⟨t, x⟩
    rw [hb] at hn
    simp only at hn
    subst hn
    exact fc_state _ t (cycle_none env s t hb).2
  · intro hn
    rcases hb : tryBlock env s with ⟨t, x⟩
    rw [hb] at hn
    cases x with
    | none => exact absurd rfl hn
    | some e =>
      by_cases he : e = env.EXCEPTION_IO_RESET
      · subst he
        rw [pass_reset env s t hb] at hx
        exact absurd hx (catchReset_control env t)
      · rw [fc_state _ (catchOther env e t) (cycle_other env s t e hb he).2]
        rfl

/-- Witness for the amended C5: two consecutive get-public-keys requests, the first
handler call returns and leaves `state = [2, 5]`, which the second call finds. -/
theorem continuation_same_opcode_witness :
    (tryBlock demoEnv repeatInput).1.state = [2, 5] ∧
    (tryBlock demoEnv repeatInput).2 = none ∧
    (cycle demoEnv repeatInput).next.lastCmdNumber = 2 ∧
    (cycle demoEnv repeatInput).next.state = (tryBlock demoEnv repeatInput).1.state ∧
    (tryBlock demoEnv (cycle demoEnv repeatInput).next).1.trace
      = [Event.exchange 0 0, Event.cleanSharedState,
         Event.handlerFn Handler.getPublicKeyHandler 0 5 0 [0, 0] none,
         Event.exchange 0 1,
         Event.handlerFn Handler.getPublicKeyHandler 1 6 0 [2, 5]
           (some Handler.getPublicKeyHandler)] :=
  have h := (continuation_same_opcode demoEnv).1 (cycle demoEnv repeatInput).next
    Handler.getPublicKeyHandler (by decide) (by decide) (by decide) (by decide) (by decide)
  have g := (continuation_same_opcode demoEnv).2 repeatInput Handler.getPublicKeyHandler
    (by decide) (by decide) (by decide) (by decide) (by decide)
    (by decide) (by decide) (by decide) (by decide)
  ⟨by decide, by decide, by decide, g.2.2.1 (by decide), h⟩

/-- C6 fails on the code: the host sends a frame of the wrong class and then
nothing.  The bad-class pass leaves `TRY` by `continue` (line 191) with the loop's
own exception context still current, so the `TRY` of the next pass remembers that
context as the one to restore.  The empty read throws `EXCEPTION_IO_RESET`, the
clause `CATCH(EXCEPTION_IO_RESET)` restores the loop's own context and its `THROW`
lands in the same clause again, however often: the reset never leaves the loop.
The same empty read in a pass that starts with the caller's context current does
leave the loop. -/
theorem empty_read_after_continue_never_leaves :
    (received demoEnv badClassThenEmptyInput).thrown = none ∧
    readByte (received demoEnv badClassThenEmptyInput).buf OFFSET_CLA = 0xE1 ∧
    (pass demoEnv badClassThenEmptyInput).control = Control.nextPass ∧
    (pass demoEnv badClassThenEmptyInput).next.try_context = TryContext.loop ∧
    (received demoEnv (pass demoEnv badClassThenEmptyInput).next).thrown = none ∧
    (received demoEnv (pass demoEnv badClassThenEmptyInput).next).rx = 0 ∧
    (tryBlock demoEnv (pass demoEnv badClassThenEmptyInput).next).2
      = some demoEnv.EXCEPTION_IO_RESET ∧
    (pass demoEnv (pass demoEnv badClassThenEmptyInput).next).control
      = Control.caughtAgain ∧
    (cycle demoEnv (cycle demoEnv badClassThenEmptyInput).next).exit = none ∧
    (∀ fuel, (ardor_loop demoEnv fuel badClassThenEmptyInput).exit = none) ∧
    (received demoEnv emptyInput).rx = 0 ∧
    (ardor_loop demoEnv 1 emptyInput).exit = some demoEnv.EXCEPTION_IO_RESET := by
  refine ⟨by decide, by decide, by decide, by decide, by decide, by decide, by decide,
    by decide, by decide, ?_, by decide, by decide⟩
  exact ardor_loop_never_leaves demoEnv badClassThenEmptyInput
    (by decide) (by decide) (by decide)

/-- C7 fails on the code: the host sends the unknown opcode `0x07` and then a
request on which the handler throws `EXCEPTION_IO_RESET`.  The unknown-command
pass leaves `TRY` by `continue` (line 205) with the loop's own exception context
still current; in the next pass the reset arises in the `TRY` block, but the
`THROW` of the clause `CATCH(EXCEPTION_IO_RESET)` lands in that same clause again,
however often: the pass in which the reset arises does not terminate the loop.
The same request in a pass that starts with the caller's context current does
terminate it. -/
theorem reset_after_continue_never_leaves :
    lookupHandler (readByte (received demoEnv unknownThenResetInput).buf OFFSET_INS) = none ∧
    (pass demoEnv unknownThenResetInput).control = Control.nextPass ∧
    (pass demoEnv unknownThenResetInput).next.try_context = TryContext.loop ∧
    (tryBlock demoEnv (pass demoEnv unknownThenResetInput).next).1.trace
      = [Event.exchange 0 0, Event.cleanSharedState, Event.fillBuffer 2 0,
         Event.exchange 0 0, Event.cleanSharedState,
         Event.handlerFn Handler.getPublicKeyHandler 0xFE 5 0 [0, 0] none] ∧
    (tryBlock demoEnv (pass demoEnv unknownThenResetInput).next).2
      = some demoEnv.EXCEPTION_IO_RESET ∧
    (pass demoEnv (pass demoEnv unknownThenResetInput).next).control
      = Control.caughtAgain ∧
    (cycle demoEnv (cycle demoEnv unknownThenResetInput).next).exit = none ∧
    (∀ fuel, (ardor_loop demoEnv fuel unknownThenResetInput).exit = none) ∧
    (tryBlock demoEnv resetInput).2 = some demoEnv.EXCEPTION_IO_RESET ∧
    (ardor_loop demoEnv 1 resetInput).exit = some demoEnv.EXCEPTION_IO_RESET := by
  refine ⟨by decide, by decide, by decide, by decide, by decide, by decide, by decide,
    ?_, by decide, by decide⟩
  exact ardor_loop_never_leaves demoEnv unknownThenResetInput
    (by decide) (by decide) (by decide)

/-- C8 fails on the code: `tx` is passed to the Response Framer by value, so the
length the framer reaches never gets back into `tx`.  After a bad-class pass `tx`
is 0 and the next exchange is called with transmit length 0, although the framed
response is 3 bytes long; after a fault pass `tx` is 2 and the next exchange is
called with transmit length 2, although the framed response is 5 bytes long. -/
theorem response_length_not_propagated :
    (cycle demoEnv badClassThenInput).next.trace
      = [Event.exchange 0 0, Event.fillBuffer demoEnv.R_BAD_CLA 0] ∧
    (specFramer 0x90 0x00 demoEnv.R_BAD_CLA 0
      (received demoEnv badClassThenInput).buf).2 = 3 ∧
    (cycle demoEnv badClassThenInput).next.tx = 0 ∧
    (ardor_loop demoEnv 2 badClassThenInput).next.trace
      = [Event.exchange 0 0, Event.fillBuffer demoEnv.R_BAD_CLA 0,
         Event.exchange 0 0, Event.cleanSharedState,
         Event.handlerFn Handler.getVersionHandler 0 5 0 [0, 0] none] ∧
    (specFramer 0x90 0x00 0x80 2 (tryBlock demoEnv repeatFaultInput).1.G_io_apdu_buffer).2 = 5 ∧
    (cycle demoEnv repeatFaultInput).next.tx = 2 ∧
    (ardor_loop demoEnv 2 repeatFaultInput).next.trace
      = [Event.exchange 0 0, Event.cleanSharedState,
         Event.handlerFn Handler.getPublicKeyHandler 0xFF 5 0 [0, 0] none,
         Event.cleanSharedState, Event.fillBuffer 0x80 2,
         Event.exchange 0 2,
         Event.handlerFn Handler.getPublicKeyHandler 0 6 0 [0, 0] none] := by
  decide

/-- C9: `lookupHandler` is a total function of the opcode alone; it maps `0x01` to
the get-version handler, `0x02` to get-public-keys, `0x03` to
authorize-and-sign-transaction, `0x04` to encrypt/decrypt-message and `0x05` to
show-address, returns a handler exactly for the opcodes `0x01..0x05`, returns
`none` (`NULL`) for every other value, sends distinct opcodes to distinct
handlers, and finds no handler for the initial value of `lastCmdNumber`. -/
theorem lookupHandler_table :
    lookupHandler 0x01 = some Handler.getVersionHandler ∧
    lookupHandler 0x02 = some Handler.getPublicKeyHandler ∧
    lookupHandler 0x03 = some Handler.authAndSignTxnHandler ∧
    lookupHandler 0x04 = some Handler.encryptDecryptMessageHandler ∧
    lookupHandler 0x05 = some Handler.showAddressHandler ∧
    (∀ ins : Nat, (∃ h, lookupHandler ins = some h) ↔ (0x01 ≤ ins ∧ ins ≤ 0x05)) ∧
    (∀ ins : Nat, lookupHandler ins = none ↔ ¬ (0x01 ≤ ins ∧ ins ≤ 0x05)) ∧
    (∀ (i j : Nat) (h : Handler), lookupHandler i = some h → lookupHandler j = some h → i = j) ∧
    lookupHandler 0x00 = none ∧
    lookupHandler lastCmdNumber_init = none := by
  have key : ∀ ins : Nat, ∀ r, lookupHandler ins = r →
      (ins = 1 ∧ r = some Handler.getVersionHandler) ∨
      (ins = 2 ∧ r = some Handler.getPublicKeyHandler) ∨
      (ins = 3 ∧ r = some Handler.authAndSignTxnHandler) ∨
      (ins = 4 ∧ r = some Handler.encryptDecryptMessageHandler) ∨
      (ins = 5 ∧ r = some Handler.showAddressHandler) ∨
      (¬ (1 ≤ ins ∧ ins ≤ 5) ∧ r = none) := by
    intro ins r hr
    subst hr
    unfold lookupHandler INS_GET_VERSION INS_GET_PUBLIC_KEYS INS_AUTH_SIGN_TXN
      INS_ENCRYPT_DECRYPT_MSG INS_SHOW_ADDRESS
    split_ifs
    all_goals first | omega | (simp_all; done) | (simp_all; omega)
  refine ⟨by decide, by decide, by decide, by decide, by decide, ?_, ?_, ?_, by decide, by decide⟩
  · intro ins
    constructor
    · rintro ⟨h, hh⟩
      rcases key ins _ hh with ⟨h1, _⟩ | ⟨h1, _⟩ | ⟨h1, _⟩ | ⟨h1, _⟩ | ⟨h1, _⟩ | ⟨_, h2⟩
      all_goals first | omega | cases h2
    · intro hi
      rcases key ins _ rfl with ⟨_, h2⟩ | ⟨_, h2⟩ | ⟨_, h2⟩ | ⟨_, h2⟩ | ⟨_, h2⟩ | ⟨h1, _⟩
      all_goals first | exact ⟨_, h2⟩ | exact absurd hi h1
  · intro ins
    constructor
    · intro hn
      rcases key ins _ hn with ⟨_, h2⟩ | ⟨_, h2⟩ | ⟨_, h2⟩ | ⟨_, h2⟩ | ⟨_, h2⟩ | ⟨h1, _⟩
      all_goals first | cases h2 | exact h1
    · intro hi
      rcases key ins _ rfl with ⟨h1, _⟩ | ⟨h1, _⟩ | ⟨h1, _⟩ | ⟨h1, _⟩ | ⟨h1, _⟩ | ⟨_, h2⟩
      all_goals first | exact h2 | (exfalso; omega)
  · intro i j h hi hj
    rcases key i _ hi with ⟨a, b⟩ | ⟨a, b⟩ | ⟨a, b⟩ | ⟨a, b⟩ | ⟨a, b⟩ | ⟨a, b⟩ <;>
    rcases key j _ hj with ⟨a', b'⟩ | ⟨a', b'⟩ | ⟨a', b'⟩ | ⟨a', b'⟩ | ⟨a', b'⟩ | ⟨a', b'⟩ <;>
    first | omega | (cases b; cases b') | cases b

/-- C10: `check_canary` is true exactly when the canary word is `0xDEADBEEF`, and a
pass started with any other canary word `c` ends as the pass started with the
original one: same exit decision, same place where control goes, and same final
state (world, buffer, marker, `state`, `rx`, `tx`, `flags`, trace of calls), up to
the canary word itself and the `PRINTF` log. -/
theorem canary_is_advisory (env : Env W) (s : DState W) (c : Nat) :
    (∀ t : DState W, check_canary t = true ↔ t.STACK_CANARY = 0xDEADBEEF) ∧
    (∃ d, cycle env { s with STACK_CANARY := c }
        = { next := withCanary c d (cycle env s).next, exit := (cycle env s).exit }) ∧
    (cycle env { s with STACK_CANARY := c }).exit = (cycle env s).exit ∧
    (cycle env { s with STACK_CANARY := c }).next.trace = (cycle env s).next.trace ∧
    (cycle env { s with STACK_CANARY := c }).next.G_io_apdu_buffer
      = (cycle env s).next.G_io_apdu_buffer ∧
    (cycle env { s with STACK_CANARY := c }).next.tx = (cycle env s).next.tx ∧
    (cycle env { s with STACK_CANARY := c }).next.flags = (cycle env s).next.flags ∧
    (cycle env { s with STACK_CANARY := c }).next.state = (cycle env s).next.state ∧
    (cycle env { s with STACK_CANARY := c }).next.lastCmdNumber
      = (cycle env s).next.lastCmdNumber ∧
    (pass env { s with STACK_CANARY := c }).control = (pass env s).control := by
  obtain ⟨d, hd⟩ := cycle_withCanary env c s
  obtain ⟨d1, hd1⟩ := pass_withCanary env c s
  refine ⟨?_, ⟨d, hd⟩, ?_⟩
  · intro t
    simp [check_canary]
  · rw [hd, hd1]
    exact ⟨rfl, rfl, rfl, rfl, rfl, rfl, rfl, rfl⟩

/-- Witness for C10: the same request with the canary intact and with the canary
overwritten by 0; only the `PRINTF` log tells the two passes apart. -/
theorem canary_is_advisory_witness :
    check_canary changeInput = true ∧
    check_canary { changeInput with STACK_CANARY := 0 } = false ∧
    (cycle demoEnv changeInput).next.debug = [DebugLine.ttt true, DebugLine.asdasd] ∧
    (cycle demoEnv { changeInput with STACK_CANARY := 0 }).next.debug
      = [DebugLine.ttt false, DebugLine.asdasd] ∧
    (cycle demoEnv { changeInput with STACK_CANARY := 0 }).exit
      = (cycle demoEnv changeInput).exit ∧
    (cycle demoEnv { changeInput with STACK_CANARY := 0 }).next.trace
      = (cycle demoEnv changeInput).next.trace ∧
    (cycle demoEnv { changeInput with STACK_CANARY := 0 }).next.state
      = (cycle demoEnv changeInput).next.state :=
  have h := (canary_is_advisory demoEnv changeInput 0).2.2
  ⟨by decide, by decide, by decide, by decide, h.1, h.2.1, h.2.2.2.2.2.1⟩

end Properties

end Ardor
